import Mathlib

/-!
The proxmox-client package: a shallow embedding of the resource inventory, the
node placement, the session handling and the template parsing.

Conventions of the embedding.

* Go `int` is the 64-bit machine integer: values are `Int`, and every arithmetic
  result is reduced with `wrapInt` (two's-complement wrap-around).
* Go `error` is `Option String`: `none` is `nil`, `some msg` an error whose
  `Error()` text is `msg`.
* A `[]*Resource` is a `List Resource`: the records an inventory holds (the
  decoder's non-nil elements), in slice order.
* A pointer argument such as `*ParsedTemplate` is the record it points to.
-/

namespace Proxmox

/-! ## resources.go -/

/-- Two's-complement reduction of an integer to the range of Go's 64-bit `int`. -/
def wrapInt (x : Int) : Int := (x + 2 ^ 63) % 2 ^ 64 - 2 ^ 63

/-- Constant `math.MinInt32`. -/
def MinInt32 : Int := -2147483648

/-- Record `Resource` of resources.go: a VM, container, node or storage.  `CPU`
is the float64 field, kept as its 64-bit pattern; no embedded function reads it.
`Typ` is the Go field `Type` (json "type"). -/
structure Resource where
  CPU : Nat := 0
  Disk : Int := 0
  Diskread : Int := 0
  Diskwrite : Int := 0
  ID : String := ""
  Maxcpu : Int := 0
  Maxdisk : Int := 0
  Maxmem : Int := 0
  Mem : Int := 0
  Name : String := ""
  Netin : Int := 0
  Netout : Int := 0
  Node : String := ""
  Status : String := ""
  Template : Int := 0
  Typ : String := ""
  Uptime : Int := 0
  Vmid : Int := 0
  Level : String := ""
  Storage : String := ""
deriving DecidableEq, Repr

/-- Type `Resources`: the list of resources of one listing. -/
abbrev Resources := List Resource

/-- Function `strconv.Itoa`: the decimal text of an integer. -/
def Itoa (n : Int) : String := toString n

/-- Method `Resources.GetNodeFromVMID`: scan in order, return the `Node` of the
first record of type lxc or qemu whose `Vmid` is `vmid`. -/
def GetNodeFromVMID : Resources → Int → String × Option String
  | [], vmid => ("", some ("Could not find node for VMID: " ++ Itoa vmid))
  | v :: pr, vmid =>
    if v.Typ = "lxc" ∨ v.Typ = "qemu" then
      if v.Vmid = vmid then (v.Node, none) else GetNodeFromVMID pr vmid
    else GetNodeFromVMID pr vmid

/-- The loop shared by the five views: start from the empty slice, walk the
inventory in order, append each record whose `Type` is `kind`. -/
def appendMatching (kind : String) (pr : Resources) : List Resource :=
  pr.foldl (fun result v => if v.Typ = kind then result ++ [v] else result) []

/-- Method `Resources.Storages`. -/
def Storages (pr : Resources) : List Resource := appendMatching "storage" pr

/-- Method `Resources.Templates`. -/
def Templates (pr : Resources) : List Resource := appendMatching "template" pr

/-- Method `Resources.Containers`. -/
def Containers (pr : Resources) : List Resource := appendMatching "lxc" pr

/-- Method `Resources.VMs`. -/
def VMs (pr : Resources) : List Resource := appendMatching "qemu" pr

/-- Method `Resources.Nodes`. -/
def Nodes (pr : Resources) : List Resource := appendMatching "node" pr

/-- What it means for a view to be the filter of one kind: on every inventory it
returns the records of that kind, in inventory order; it is empty exactly when the
inventory holds no record of that kind; and it is empty on the empty inventory. -/
def IsKindFilter (view : Resources → List Resource) (kind : String) : Prop :=
  ∀ pr : Resources,
    view pr = pr.filter (fun v => decide (v.Typ = kind))
    ∧ List.Sublist (view pr) pr
    ∧ (view pr = [] ↔ ∀ v ∈ pr, v.Typ ≠ kind)
    ∧ view [] = []

/-! ## nodes.go: the placement loop of `PickNode` -/

/-- Inner loop of `PickNode`: starting from `acc`, subtract (with wrap-around) the
`Mem` of every container whose `Node` is `name`. -/
def subtractProvisioned (name : String) (containers : List Resource) (acc : Int) : Int :=
  containers.foldl (fun npm container =>
    if container.Node = name then wrapInt (npm - container.Mem) else npm) acc

/-- The value `nonProvisionedMemory` the loop holds for `node` after its inner loop. -/
def nonProvisionedMemory (containers : List Resource) (node : Resource) : Int :=
  subtractProvisioned node.Node containers node.Mem

/-- Outer loop of `PickNode` over the remaining nodes, carrying `result` and
`mostNonProvisionedMemory`. -/
def pickLoop (containers : List Resource) : List Resource → String → Int → String
  | [], result, _ => result
  | node :: rest, result, most =>
    if nonProvisionedMemory containers node > most then
      pickLoop containers rest node.Node (nonProvisionedMemory containers node)
    else pickLoop containers rest result most

/-- Body of `PickNode` once `ResourceList` has returned `resources` without error. -/
def pickNodeFrom (resources : Resources) : String × Option String :=
  match Nodes resources with
  | [] => ("", some "no nodes found")
  | first :: rest =>
    (pickLoop (Containers resources) (first :: rest) first.Node MinInt32, none)

/-- The claimed objective: capacity minus the exact sum of the `Mem` of the
containers (records of type lxc) placed on the node. -/
def availableSpec (resources : Resources) (node : Resource) : Int :=
  node.Mem - ((resources.filter (fun r => r.Typ = "lxc" ∧ r.Node = node.Node)).map
    (fun r => r.Mem)).sum

/-! ## The HTTP boundary

The Go client talks to the server through `http.Client`, `url.Parse` and
`encoding/json`.  They are not part of the repository; an `Env` supplies them. -/

/-- Result of a Go call that either returns or panics. -/
inductive Outcome (α : Type) where
  | ret (value : α)
  | panic (msg : String)
deriving DecidableEq, Repr

/-- Record `http.Cookie`, the four fields `SignIn` sets. -/
structure Cookie where
  Name : String
  Value : String
  Domain : String
  Path : String
deriving DecidableEq, Repr

/-- An `http.Request` as the client hands it to `http.Client`: method, URL (with
its query), headers, posted form, and the cookies the jar holds at that moment.
Header keys are compared as written (Go canonicalises them on `Set` and `Get` alike).
`URL` is the text `http.NewRequest` parsed; `Query` holds the pairs of the
`url.Values` a caller wrote to `req.URL.RawQuery`, in the order they were added
(`Encode` sorts them by key), and is empty when the caller wrote none. -/
structure Request where
  Method : String
  URL : String
  Header : List (String × String) := []
  Form : List (String × String) := []
  Cookies : List Cookie := []
  Query : List (String × String) := []
deriving DecidableEq, Repr

/-- The fields of `http.Response` the client reads. -/
structure Response where
  StatusCode : Int
  Status : String
  Body : String
deriving DecidableEq, Repr

/-- Record `AuthTicketResponse.Data` of auth.go. -/
structure AuthTicketResponse where
  Ticket : String := ""
  Username : String := ""
  CSRFPreventionToken : String := ""
deriving DecidableEq, Repr

/-- Record `Client` of client.go; `jar` is the cookie jar of its `http.Client`. -/
structure Client where
  CSRFToken : String := ""
  Ticket : String := ""
  host : String := ""
  username : String := ""
  password : String := ""
  jar : List Cookie := []
deriving DecidableEq, Repr

/-- A client together with the log of the requests it has handed to `http.Client`. -/
structure Session where
  client : Client
  sent : List Request := []
deriving DecidableEq, Repr

/-- Record `ContainerConfig` of containers.go. -/
structure ContainerConfig where
  Memory : Int := 0
  Cpulimit : String := ""
  Digest : String := ""
  Cores : Int := 0
  Ostype : String := ""
  Rootfs : String := ""
  Hostname : String := ""
  Arch : String := ""
  Description : String := ""
  Swap : Int := 0
  Net0 : String := ""
deriving DecidableEq, Repr

/-- Field `Cpuinfo` of `NodeStatus`. -/
structure NodeStatusCpuinfo where
  Cpus : Int := 0
  Hvm : Int := 0
  Mhz : String := ""
  Model : String := ""
  Sockets : Int := 0
  UserHz : Int := 0
deriving DecidableEq, Repr

/-- Fields `Memory`, `Rootfs` and `Swap` of `NodeStatus` (`Avail` is set for
`Rootfs` only). -/
structure NodeStatusUsage where
  Avail : Int := 0
  Free : Int := 0
  Total : Int := 0
  Used : Int := 0
deriving DecidableEq, Repr

/-- Record `NodeStatus` of nodes.go; `KsmShared` is the field `Ksm.Shared`. -/
structure NodeStatus where
  CPU : Int := 0
  Cpuinfo : NodeStatusCpuinfo := {}
  Idle : Int := 0
  KsmShared : Int := 0
  Kversion : String := ""
  Loadavg : List String := []
  Memory : NodeStatusUsage := {}
  Pveversion : String := ""
  Rootfs : NodeStatusUsage := {}
  Swap : NodeStatusUsage := {}
  Uptime : Int := 0
  Wait : Int := 0
deriving DecidableEq, Repr

/-- The collaborators outside the repository.
* `proxmoxDomain`: the package constant of that name (declared outside the given sources);
* `urlParse s`: `url.Parse(s)` followed by `u.String()`, or the parse error;
* `roundTrip sent req`: what `http.Client` returns for `req` after the requests
  `sent`: the pair `(resp, err)`, `none` standing for `nil`;
* `decodeAuth`, `decodeResources`: `json.NewDecoder(body).Decode` into a fresh
  `AuthTicketResponse`, respectively `ResourcesResponse`, or the decode error;
* `urlQuery u`: `URL.Query()` of the URL whose text is `u`, the values its own
  query part holds, in order;
* `decodeNextID`, `decodeContainerConfig`, `decodeNodeStatus`: the decoder on a
  fresh `NextIDResponse`, `ContainerConfigResponse` and `NodeStatusResponse`,
  giving the field `Data` (`none` for a nil pointer);
* `atoi`: `strconv.Atoi`, as the pair of its results. -/
structure Env where
  proxmoxDomain : String
  urlParse : String → Except String String
  roundTrip : List Request → Request → Option Response × Option String
  decodeAuth : String → Except String AuthTicketResponse
  decodeResources : String → Except String (List Resource)
  urlQuery : String → List (String × String) := fun _ => []
  decodeNextID : String → Except String String := fun _ => .error "EOF"
  decodeContainerConfig : String → Except String (Option ContainerConfig) :=
    fun _ => .error "EOF"
  decodeNodeStatus : String → Except String (Option NodeStatus) := fun _ => .error "EOF"
  atoi : String → Int × Option String :=
    fun t => match t.toInt? with
      | some n => (n, none)
      | none => (0, some ("strconv.Atoi: parsing \"" ++ t ++ "\": invalid syntax"))

/-- Constant `http.StatusOK`. -/
def StatusOK : Int := 200

/-- Text of the run-time panic raised when a field of a nil `*http.Response` is read. -/
def nilDereference : String :=
  "runtime error: invalid memory address or nil pointer dereference"

/-- Function `errors.Wrap(err, msg)`, as the text of the wrapped error. -/
def Wrap (err msg : String) : String := msg ++ ": " ++ err

/-- Method `http.Header.Set`: replace the values stored under `key`. -/
def headerSet (h : List (String × String)) (key value : String) : List (String × String) :=
  h.filter (fun kv => kv.1 ≠ key) ++ [(key, value)]

/-- Method `http.Header.Get`: the first value stored under `key`, if any. -/
def headerGet (h : List (String × String)) (key : String) : Option String :=
  (h.find? (fun kv => kv.1 = key)).map (fun kv => kv.2)

/-- Function `http.NewRequest(method, url, nil)`: it parses the URL again. -/
def NewRequest (env : Env) (method url : String) : Except String Request :=
  match env.urlParse url with
  | .error e => .error e
  | .ok u => .ok { Method := method, URL := u }

/-! ## auth.go -/

/-- The GET request `c.client.Get(url)` issues. -/
def getRequest (c : Client) (url : String) : Request :=
  { Method := "GET", URL := url, Cookies := c.jar }

/-- The request `c.client.PostForm(url, values)` issues in `SignIn`: the form
holds the stored username and password. -/
def ticketRequest (c : Client) (url : String) : Request :=
  { Method := "POST", URL := url,
    Header := [("Content-Type", "application/x-www-form-urlencoded")],
    Form := [("username", c.username), ("password", c.password)],
    Cookies := c.jar }

/-- Method `cookiejar.Jar.SetCookies` for one cookie: the jar keeps one cookie per
name, domain and path, so the new cookie takes the place of the one it matches. -/
def SetCookies (jar : List Cookie) (cookie : Cookie) : List Cookie :=
  jar.filter (fun k =>
      !(decide (k.Name = cookie.Name ∧ k.Domain = cookie.Domain ∧ k.Path = cookie.Path)))
    ++ [cookie]

/-- Method `Client.SignIn`.  The decoded ticket and CSRF token are stored in the
client before the status of the response is looked at. -/
def SignIn (env : Env) (s : Session) : Outcome (Option String) × Session :=
  let c := s.client
  match env.urlParse (c.host ++ "/api2/json/access/ticket") with
  | .error e => (.ret (some (Wrap e "Could not parse URL")), s)
  | .ok u =>
    let req := ticketRequest c u
    let s1 : Session := { s with sent := s.sent ++ [req] }
    match env.roundTrip s.sent req with
    | (_, some e) => (.ret (some (Wrap e "Could not POST form to proxmox ticket endpoint")), s1)
    | (none, none) => (.panic nilDereference, s1)
    | (some resp, none) =>
      match env.decodeAuth resp.Body with
      | .error e => (.panic (Wrap e "Could not decode JSON"), s1)
      | .ok authResponse =>
        let c1 : Client :=
          { c with CSRFToken := authResponse.CSRFPreventionToken, Ticket := authResponse.Ticket }
        let proxmoxCookie : Cookie :=
          { Name := "PVEAuthCookie", Value := c1.Ticket, Domain := env.proxmoxDomain, Path := "/" }
        if resp.StatusCode ≠ StatusOK then
          (.ret (some ("Could not auth: " ++ resp.Status)), { s1 with client := c1 })
        else
          (.ret none, { s1 with client := { c1 with jar := SetCookies c1.jar proxmoxCookie } })

/-- Method `Client.VerifyTicket`.  The error of `c.client.Get` is not looked at:
the status of the response is read at once. -/
def VerifyTicket (env : Env) (s : Session) : Outcome (Bool × Option String) × Session :=
  let c := s.client
  match env.urlParse (c.host ++ "/api2/json/version") with
  | .error e => (.ret (false, some (Wrap e "Could not parse URL")), s)
  | .ok u =>
    let req := getRequest c u
    let s1 : Session := { s with sent := s.sent ++ [req] }
    match (env.roundTrip s.sent req).1 with
    | none => (.panic nilDereference, s1)
    | some resp =>
      if resp.StatusCode ≠ StatusOK then
        (.ret (false, some ("Could not do auth check: " ++ resp.Status)), s1)
      else (.ret (true, none), s1)

/-- The sequence every privileged call starts with: `VerifyTicket`, return its
error if any, and `SignIn` when it reported `false` without error.  The result is
the error the enclosing call returns at once, or `none` to go on. -/
def verifyThenSignIn (env : Env) (s : Session) : Outcome (Option String) × Session :=
  match VerifyTicket env s with
  | (.panic m, s1) => (.panic m, s1)
  | (.ret (_, some err), s1) => (.ret (some err), s1)
  | (.ret (authed, none), s1) =>
    if !authed then SignIn env s1 else (.ret none, s1)

/-! ## helpers.go -/

/-- Method `Client.vmStatusPOSTHelper`. -/
def vmStatusPOSTHelper (env : Env) (action node : String) (containerID : Int)
    (vmType : String) (s : Session) : Outcome (Option String) × Session :=
  match verifyThenSignIn env s with
  | (.panic m, s1) => (.panic m, s1)
  | (.ret (some err), s1) => (.ret (some err), s1)
  | (.ret none, s1) =>
    let c := s1.client
    match env.urlParse (c.host ++ "/api2/json/nodes/" ++ node ++ "/" ++ vmType ++ "/"
        ++ Itoa containerID ++ "/status/" ++ action) with
    | .error e => (.ret (some (Wrap e "Could not parse URL")), s1)
    | .ok u =>
      match NewRequest env "POST" u with
      | .error e => (.ret (some (Wrap e "Could not create request")), s1)
      | .ok req0 =>
        let req : Request :=
          { req0 with Header := headerSet req0.Header "CSRFPreventionToken" c.CSRFToken,
                      Cookies := c.jar }
        let s2 : Session := { s1 with sent := s1.sent ++ [req] }
        match env.roundTrip s1.sent req with
        | (_, some e) => (.ret (some (Wrap e "Could not execute request")), s2)
        | (none, none) => (.panic nilDereference, s2)
        | (some proxmoxResp, none) =>
          if proxmoxResp.StatusCode ≠ StatusOK then
            (.ret (some ("Could not " ++ action ++ " container: " ++ proxmoxResp.Status)), s2)
          else (.ret none, s2)

/-- Methods `ContainerStop`, `ContainerStart`, `ContainerShutdown`, `ContainerResume`
of containers.go: the helper with the action name and the type lxc. -/
def ContainerStatus (env : Env) (action node : String) (vmid : Int) (s : Session) :
    Outcome (Option String) × Session :=
  vmStatusPOSTHelper env action node vmid "lxc" s

/-! ## resources.go and nodes.go: the fetch -/

/-- Method `Client.ResourceList`. -/
def ResourceList (env : Env) (s : Session) :
    Outcome (Resources × Option String) × Session :=
  match verifyThenSignIn env s with
  | (.panic m, s1) => (.panic m, s1)
  | (.ret (some err), s1) => (.ret ([], some err), s1)
  | (.ret none, s1) =>
    let c := s1.client
    match env.urlParse (c.host ++ "/api2/json/cluster/resources") with
    | .error e => (.ret ([], some e), s1)
    | .ok u =>
      let req := getRequest c u
      let s2 : Session := { s1 with sent := s1.sent ++ [req] }
      match (env.roundTrip s1.sent req).1 with
      | none => (.panic nilDereference, s2)
      | some proxmoxAPIResp =>
        if proxmoxAPIResp.StatusCode ≠ StatusOK then
          (.ret ([], some ("Could not get node list: " ++ proxmoxAPIResp.Status)), s2)
        else
          match env.decodeResources proxmoxAPIResp.Body with
          | .error e => (.panic (Wrap e "Could not decode JSON"), s2)
          | .ok data => (.ret (data, none), s2)

/-- Method `Client.PickNode`. -/
def PickNode (env : Env) (s : Session) : Outcome (String × Option String) × Session :=
  match ResourceList env s with
  | (.panic m, s1) => (.panic m, s1)
  | (.ret (_, some err), s1) => (.ret ("", some err), s1)
  | (.ret (resources, none), s1) => (.ret (pickNodeFrom resources), s1)

/-! ## helpers.go: `ParseTemplate`, and containers.go: `ParsedTemplate.String`

The expression `\/(.*?){1}-(.*?){1}-(.*?){1}_(.*?){1}_(.*?){1}\.` uses two kinds
of item only: a literal character, and a capture group holding a lazy run of `.`
taken exactly once.  `regexp` returns the leftmost match and, there, the one a
backtracking search finds first. -/

/-- One item of the expression. -/
inductive Item where
  | lit (c : Char)
  | lazyGroup
deriving DecidableEq, Repr

/-- The expression `expr` of `ParseTemplate`. -/
def templateExpr : List Item :=
  [.lit '/', .lazyGroup, .lit '-', .lazyGroup, .lit '-', .lazyGroup,
   .lit '_', .lazyGroup, .lit '_', .lazyGroup, .lit '.']

/-- A lazy run `(.*?)` followed by the continuation `k`: try `k` on the input as
it stands, and only when that fails take one more character that is not a line
feed.  `taken` is what the group holds so far. -/
def lazyRun (k : List Char → Option (List (List Char) × List Char)) :
    List Char → List Char → Option (List (List Char) × List Char)
  | taken, [] => (k []).map (fun r => (taken :: r.1, r.2))
  | taken, x :: rest =>
    match k (x :: rest) with
    | some r => some (taken :: r.1, r.2)
    | none => if x = '\n' then none else lazyRun k (taken ++ [x]) rest

/-- Backtracking match of the items at the start of the input: the texts of the
groups, in order, and the input left over. -/
def matchItems : List Item → List Char → Option (List (List Char) × List Char)
  | [], input => some ([], input)
  | .lit c :: items, input =>
    match input with
    | [] => none
    | x :: rest => if x = c then matchItems items rest else none
  | .lazyGroup :: items, input => lazyRun (matchItems items) [] input

/-- Leftmost match: try every start position from the left.  The first component
is the text of the whole match. -/
def findLeftmost (items : List Item) : List Char → Option (List Char × List (List Char))
  | [] => (matchItems items []).map (fun r => ([], r.1))
  | x :: rest =>
    match matchItems items (x :: rest) with
    | some r => some ((x :: rest).take ((x :: rest).length - r.2.length), r.1)
    | none => findLeftmost items rest

/-- Method `Regexp.FindStringSubmatch`: the whole match followed by the groups,
or the nil slice when there is no match. -/
def FindStringSubmatch (items : List Item) (s : String) : List String :=
  match findLeftmost items s.data with
  | none => []
  | some (whole, groups) => String.mk whole :: groups.map String.mk

/-- Record `RaijinTemplate` of helpers.go. -/
structure RaijinTemplate where
  OS : String := ""
  OSVersion : String := ""
  Name : String := ""
  OSVersion2 : String := ""
  Arch : String := ""
  Extension : String := ""
deriving DecidableEq, Repr

/-- Text of the run-time panic of an index expression out of range. -/
def indexOutOfRange (i len : Nat) : String :=
  "runtime error: index out of range [" ++ toString i ++ "] with length " ++ toString len

/-- Function `ParseTemplate`.  The record is built from `result[1]` to `result[5]`
before `result` is tested, so each index expression is evaluated first, in order. -/
def ParseTemplate (templateStr : String) : Outcome (Option RaijinTemplate × Option String) :=
  let result := FindStringSubmatch templateExpr templateStr
  match result[1]? with
  | none => .panic (indexOutOfRange 1 result.length)
  | some r1 =>
  match result[2]? with
  | none => .panic (indexOutOfRange 2 result.length)
  | some r2 =>
  match result[3]? with
  | none => .panic (indexOutOfRange 3 result.length)
  | some r3 =>
  match result[4]? with
  | none => .panic (indexOutOfRange 4 result.length)
  | some r4 =>
  match result[5]? with
  | none => .panic (indexOutOfRange 5 result.length)
  | some r5 =>
    let template : RaijinTemplate :=
      { OS := r1, OSVersion := r2, Name := r3, OSVersion2 := r4, Arch := r5 }
    match result[0]? with
    | none => .panic (indexOutOfRange 0 result.length)
    | some r0 =>
      if r0 = "" ∨ r1 = "" ∨ r2 = "" ∨ r3 = "" ∨ r4 = "" ∨ r5 = "" then
        .ret (none, some "no matches found from template")
      else .ret (some template, none)

/-- Record `ParsedTemplate` of containers.go. -/
structure ParsedTemplate where
  OS : String := ""
  OSVersion : String := ""
  Name : String := ""
  OSVersion2 : String := ""
  Arch : String := ""
  Extension : String := ""
deriving DecidableEq, Repr

/-- Method `ParsedTemplate.String`: the format `%s-%s-%s_%s_%s%s`. -/
def ParsedTemplate.String (pt : ParsedTemplate) : String :=
  pt.OS ++ "-" ++ pt.OSVersion ++ "-" ++ pt.Name ++ "_" ++ pt.OSVersion2 ++ "_" ++ pt.Arch
    ++ pt.Extension

/-- The `ParsedTemplate` with the six fields of a `RaijinTemplate`. -/
def RaijinTemplate.toParsed (t : RaijinTemplate) : ParsedTemplate :=
  { OS := t.OS, OSVersion := t.OSVersion, Name := t.Name, OSVersion2 := t.OSVersion2,
    Arch := t.Arch, Extension := t.Extension }

/-! ## client.go, containers.go and nodes.go: the remaining calls -/

/-- Method `url.Values.Add`: append `value` to the values of `key`. -/
def valuesAdd (q : List (String × String)) (key value : String) : List (String × String) :=
  q ++ [(key, value)]

/-- The slice `q[key]` of a `url.Values`: the values of `key`, in order. -/
def valuesOf (q : List (String × String)) (key : String) : List String :=
  (q.filter (fun kv => kv.1 = key)).map (fun kv => kv.2)

/-- Record `ContainerCreateRequest` of containers.go; `Template` is the record
the pointer refers to. -/
structure ContainerCreateRequest where
  MAC : String := ""
  Template : ParsedTemplate := {}
  Node : String := ""
  VMID : Int := 0
  CPUCores : Int := 0
  Memory : Int := 0
  StorageCapacity : Int := 0
  StorageID : String := ""
  SSHPublicKey : String := ""
  Password : String := ""
  HostName : String := ""
  IPAddress : String := ""
deriving DecidableEq, Repr

/-- The request `ContainerCreate` hands to `c.client.Do`: `req0` is what
`http.NewRequest` returned and `buf` the TOML text of `params`.  The query starts
from `req.URL.Query()` and receives twelve `Add` calls; then the header is set. -/
def createRequest (env : Env) (c : Client) (params : ContainerCreateRequest) (buf : String)
    (req0 : Request) : Request :=
  let q := env.urlQuery req0.URL
  let q := valuesAdd q "ostemplate" ("templates:vztmpl/" ++ params.Template.String)
  let q := valuesAdd q "vmid" (Itoa params.VMID)
  let q := valuesAdd q "storage" params.StorageID
  let q := valuesAdd q "swap" "512"
  let q := valuesAdd q "cores" (Itoa params.CPUCores)
  let q := valuesAdd q "rootfs" (Itoa params.StorageCapacity)
  let q := valuesAdd q "cpulimit" (Itoa params.CPUCores)
  let q := valuesAdd q "memory" (Itoa params.Memory)
  let q := valuesAdd q "hostname" params.HostName
  let q := valuesAdd q "password" params.Password
  let q := valuesAdd q "description" buf
  let q := valuesAdd q "net0"
    ("name=eth0,bridge=vmbr3,hwaddr=" ++ params.MAC ++ ",ip=dhcp,tag=10,type=veth")
  { req0 with Query := q,
              Header := headerSet req0.Header "CSRFPreventionToken" c.CSRFToken,
              Cookies := c.jar }

/-- Method `Client.ContainerCreate`.  `tomlEncode params` is the text
`toml.NewEncoder(&buf).Encode(params)` leaves in `buf`, or its error, on which
`log.Fatal` ends the process (an outcome kept as a panic). -/
def ContainerCreate (env : Env) (tomlEncode : ContainerCreateRequest → Except String String)
    (params : ContainerCreateRequest) (s : Session) : Outcome (Option String) × Session :=
  match verifyThenSignIn env s with
  | (.panic m, s1) => (.panic m, s1)
  | (.ret (some err), s1) => (.ret (some err), s1)
  | (.ret none, s1) =>
    let c := s1.client
    match env.urlParse (c.host ++ "/api2/json/nodes/" ++ params.Node ++ "/lxc") with
    | .error e => (.ret (some e), s1)
    | .ok u =>
      match NewRequest env "POST" u with
      | .error e => (.ret (some (Wrap e "Could not create request")), s1)
      | .ok req0 =>
        match tomlEncode params with
        | .error e => (.panic ("log.Fatal: " ++ e), s1)
        | .ok buf =>
          let req := createRequest env c params buf req0
          let s2 : Session := { s1 with sent := s1.sent ++ [req] }
          match env.roundTrip s1.sent req with
          | (_, some e) => (.ret (some (Wrap e "Could not execute request")), s2)
          | (none, none) => (.panic nilDereference, s2)
          | (some proxmoxResp, none) =>
            if proxmoxResp.StatusCode ≠ StatusOK then
              (.ret (some ("Could not create container: " ++ proxmoxResp.Status)), s2)
            else (.ret none, s2)

/-- The request `ContainerDelete` hands to `c.client.Do`. -/
def deleteRequest (c : Client) (req0 : Request) : Request :=
  { req0 with Header := headerSet req0.Header "CSRFPreventionToken" c.CSRFToken,
              Cookies := c.jar }

/-- Method `Client.ContainerDelete`.  The URL is parsed before the ticket is verified. -/
def ContainerDelete (env : Env) (node : String) (vmid : Int) (s : Session) :
    Outcome (Option String) × Session :=
  match env.urlParse (s.client.host ++ "/api2/json/nodes/" ++ node ++ "/lxc/" ++ Itoa vmid) with
  | .error e => (.ret (some e), s)
  | .ok u =>
    match verifyThenSignIn env s with
    | (.panic m, s1) => (.panic m, s1)
    | (.ret (some err), s1) => (.ret (some err), s1)
    | (.ret none, s1) =>
      let c := s1.client
      match NewRequest env "DELETE" u with
      | .error e => (.ret (some (Wrap e "Could not create request")), s1)
      | .ok req0 =>
        let req := deleteRequest c req0
        let s2 : Session := { s1 with sent := s1.sent ++ [req] }
        match env.roundTrip s1.sent req with
        | (_, some e) => (.ret (some (Wrap e "Could not execute request")), s2)
        | (none, none) => (.panic nilDereference, s2)
        | (some proxmoxResp, none) =>
          if proxmoxResp.StatusCode ≠ StatusOK then
            (.ret (some ("Could not create container: " ++ proxmoxResp.Status)), s2)
          else (.ret none, s2)

/-- Method `Client.ContainerConfig`, on the fields `Node` and `VMID` of its request. -/
def ContainerConfigOf (env : Env) (node : String) (vmid : Int) (s : Session) :
    Outcome (Option ContainerConfig × Option String) × Session :=
  match verifyThenSignIn env s with
  | (.panic m, s1) => (.panic m, s1)
  | (.ret (some err), s1) => (.ret (none, some err), s1)
  | (.ret none, s1) =>
    let c := s1.client
    match env.urlParse (c.host ++ "/api2/json/nodes/" ++ node ++ "/lxc/" ++ Itoa vmid
        ++ "/config") with
    | .error e => (.ret (none, some e), s1)
    | .ok u =>
      let req := getRequest c u
      let s2 : Session := { s1 with sent := s1.sent ++ [req] }
      match (env.roundTrip s1.sent req).1 with
      | none => (.panic nilDereference, s2)
      | some resp =>
        if resp.StatusCode ≠ StatusOK then
          (.ret (none, some ("Could not get container config: " ++ resp.Status)), s2)
        else
          match env.decodeContainerConfig resp.Body with
          | .error e => (.panic (Wrap e "Could not decode JSON"), s2)
          | .ok data => (.ret (data, none), s2)

/-- Method `Client.NodeStatus`. -/
def NodeStatusOf (env : Env) (node : String) (s : Session) :
    Outcome (Option NodeStatus × Option String) × Session :=
  match verifyThenSignIn env s with
  | (.panic m, s1) => (.panic m, s1)
  | (.ret (some err), s1) => (.ret (none, some err), s1)
  | (.ret none, s1) =>
    let c := s1.client
    match env.urlParse (c.host ++ "/api2/json/nodes/" ++ node ++ "/status") with
    | .error e => (.ret (none, some e), s1)
    | .ok u =>
      let req := getRequest c u
      let s2 : Session := { s1 with sent := s1.sent ++ [req] }
      match (env.roundTrip s1.sent req).1 with
      | none => (.panic nilDereference, s2)
      | some proxmoxAPIResp =>
        if proxmoxAPIResp.StatusCode ≠ StatusOK then
          (.ret (none, some ("Could not get node status: " ++ proxmoxAPIResp.Status)), s2)
        else
          match env.decodeNodeStatus proxmoxAPIResp.Body with
          | .error e => (.panic (Wrap e "Could not decode JSON"), s2)
          | .ok data => (.ret (data, none), s2)

/-- Method `Client.NextID`. -/
def NextID (env : Env) (s : Session) : Outcome (Int × Option String) × Session :=
  match verifyThenSignIn env s with
  | (.panic m, s1) => (.panic m, s1)
  | (.ret (some err), s1) => (.ret (0, some err), s1)
  | (.ret none, s1) =>
    let c := s1.client
    match env.urlParse (c.host ++ "/api2/json/cluster/nextid") with
    | .error e => (.ret (0, some e), s1)
    | .ok u =>
      let req := getRequest c u
      let s2 : Session := { s1 with sent := s1.sent ++ [req] }
      match env.roundTrip s1.sent req with
      | (_, some e) => (.ret (0, some e), s2)
      | (none, none) => (.panic nilDereference, s2)
      | (some proxmoxAPIResp, none) =>
        if proxmoxAPIResp.StatusCode ≠ StatusOK then
          (.ret (0, some ("Could not get next ID: " ++ proxmoxAPIResp.Status)), s2)
        else
          match env.decodeNextID proxmoxAPIResp.Body with
          | .error e => (.panic (Wrap e "Could not decode JSON"), s2)
          | .ok data => (.ret (env.atoi data), s2)

/-! ## What a call adds to the log of requests -/

/-- The name of the CSRF header. -/
def csrfHeader : String := "CSRFPreventionToken"

/-- A read request: a GET without the CSRF header. -/
def IsRead (r : Request) : Prop :=
  r.Method = "GET" ∧ headerGet r.Header csrfHeader = none

/-- A mutating request of the client `c`: it has the given method, its URL is what
`url.Parse` and then `http.NewRequest` make of the text `target`, and its CSRF
header is the `CSRFToken` of `c`. -/
def IsMutating (env : Env) (c : Client) (method target : String) (r : Request) : Prop :=
  r.Method = method
  ∧ (∃ u, env.urlParse target = .ok u ∧ env.urlParse u = .ok r.URL)
  ∧ headerGet r.Header csrfHeader = some c.CSRFToken

/-- The log of `s2` is the log of `s` followed by requests that all satisfy `P`. -/
def Adds (P : Request → Prop) (s s2 : Session) : Prop :=
  ∃ added, s2.sent = s.sent ++ added ∧ ∀ r ∈ added, P r

/-- The twelve pairs `ContainerCreate` adds to the query, in the order of its
`Add` calls; `buf` is the TOML text of the request. -/
def createPairs (params : ContainerCreateRequest) (buf : String) : List (String × String) :=
  [("ostemplate", "templates:vztmpl/" ++ params.Template.String),
   ("vmid", Itoa params.VMID),
   ("storage", params.StorageID),
   ("swap", "512"),
   ("cores", Itoa params.CPUCores),
   ("rootfs", Itoa params.StorageCapacity),
   ("cpulimit", Itoa params.CPUCores),
   ("memory", Itoa params.Memory),
   ("hostname", params.HostName),
   ("password", params.Password),
   ("description", buf),
   ("net0", "name=eth0,bridge=vmbr3,hwaddr=" ++ params.MAC ++ ",ip=dhcp,tag=10,type=veth")]

/-- The query the specification describes for a create request: each listed key
has exactly one value, the stated one (any one value for the description). -/
def HasClaimedQuery (params : ContainerCreateRequest) (q : List (String × String)) : Prop :=
  valuesOf q "ostemplate"
      = ["templates:vztmpl/" ++ (params.Template.OS ++ "-" ++ params.Template.OSVersion ++ "-"
          ++ params.Template.Name ++ "_" ++ params.Template.OSVersion2 ++ "_"
          ++ params.Template.Arch ++ params.Template.Extension)]
  ∧ valuesOf q "vmid" = [Itoa params.VMID]
  ∧ valuesOf q "storage" = [params.StorageID]
  ∧ valuesOf q "swap" = ["512"]
  ∧ valuesOf q "cores" = [Itoa params.CPUCores]
  ∧ valuesOf q "cpulimit" = [Itoa params.CPUCores]
  ∧ valuesOf q "rootfs" = [Itoa params.StorageCapacity]
  ∧ valuesOf q "hostname" = [params.HostName]
  ∧ valuesOf q "password" = [params.Password]
  ∧ (valuesOf q "description").length = 1
  ∧ valuesOf q "net0"
      = ["name=eth0,bridge=vmbr3,hwaddr=" ++ params.MAC ++ ",ip=dhcp,tag=10,type=veth"]

instance (params : ContainerCreateRequest) (q : List (String × String)) :
    Decidable (HasClaimedQuery params q) := by
  unfold HasClaimedQuery
  infer_instance

/-- The request a mutating call is claimed to send: the method, the URL, the CSRF
header with the token of the client `c` as its only header, and the cookies of
the jar. -/
def mutatingRequest (c : Client) (method url : String) : Request :=
  { Method := method, URL := url, Header := [(csrfHeader, c.CSRFToken)], Cookies := c.jar }

/-! ## Inventories used as concrete inputs -/

/-- The five kinds the views select. -/
def viewKinds : List String := ["node", "lxc", "qemu", "storage", "template"]

/-- The inventory of the specification's example: nodes A and B, one container on each. -/
def twoNodes : Resources :=
  [ { Typ := "node", Node := "A", ID := "node/A", Mem := 1000 },
    { Typ := "node", Node := "B", ID := "node/B", Mem := 2000 },
    { Typ := "lxc", Node := "A", ID := "lxc/100", Vmid := 100, Mem := 200 },
    { Typ := "lxc", Node := "B", ID := "lxc/101", Vmid := 101, Mem := 1900 } ]

/-- An inventory holding one record of type pool, a type the listing returns
and none of the views selects. -/
def poolOnly : Resources := [ { Typ := "pool", ID := "/pool/dev" } ]

/-- The container of `sharedVmid`, on node pve2 with vmid 100. -/
def sharedVmidContainer : Resource :=
  { Typ := "lxc", Node := "pve2", ID := "lxc/100", Vmid := 100 }

/-- An inventory in which a VM and a container carry the same vmid, the VM first. -/
def sharedVmid : Resources :=
  [ { Typ := "qemu", Node := "pve1", ID := "qemu/100", Vmid := 100 }, sharedVmidContainer ]

/-- An inventory without any node record: a container, a VM, a storage and a template. -/
def noNodes : Resources :=
  [ { Typ := "lxc", Node := "A", ID := "lxc/100", Vmid := 100, Mem := 200 },
    { Typ := "qemu", Node := "A", ID := "qemu/101", Vmid := 101, Mem := 300 },
    { Typ := "storage", Node := "A", ID := "storage/A/local", Storage := "local" },
    { Typ := "template", ID := "template/debian" } ]

/-- Node A of `overcommitted`, capacity 0. -/
def overcommittedA : Resource := { Typ := "node", Node := "A", ID := "node/A", Mem := 0 }

/-- Node B of `overcommitted`, capacity 1000. -/
def overcommittedB : Resource := { Typ := "node", Node := "B", ID := "node/B", Mem := 1000 }

/-- An inventory in which both nodes are committed beyond their capacity by more
than 2^31: A has 0 and B has 1000, each with one container of 3000000000. -/
def overcommitted : Resources :=
  [ overcommittedA, overcommittedB,
    { Typ := "lxc", Node := "A", ID := "lxc/100", Vmid := 100, Mem := 3000000000 },
    { Typ := "lxc", Node := "B", ID := "lxc/101", Vmid := 101, Mem := 3000000000 } ]

/-- A response with status 200. -/
def okResponse : Response := { StatusCode := 200, Status := "200 OK", Body := "" }

/-- A server that answers every request with status 200 and whose resource
listing decodes to `data`. -/
def servingEnv (data : Resources) : Env :=
  { proxmoxDomain := "pve.example",
    urlParse := fun u => .ok u,
    roundTrip := fun _ _ => (some okResponse, none),
    decodeAuth := fun _ => .ok {},
    decodeResources := fun _ => .ok data }

/-- A session that signed in earlier. -/
def signedIn : Session :=
  { client := { CSRFToken := "csrf-1", Ticket := "ticket-1", host := "https://pve.example:8006",
                username := "root@pam", password := "secret",
                jar := [{ Name := "PVEAuthCookie", Value := "ticket-1", Domain := "pve.example",
                          Path := "/" }] } }

/-- A response with status 401. -/
def unauthorized : Response :=
  { StatusCode := 401, Status := "401 authentication failure", Body := "\x7b\x7d" }

/-- A server that rejects every request with status 401; the body of its answer
decodes to an `AuthTicketResponse` whose fields are all empty. -/
def rejectingEnv : Env :=
  { proxmoxDomain := "pve.example",
    urlParse := fun u => .ok u,
    roundTrip := fun _ _ => (some unauthorized, none),
    decodeAuth := fun _ => .ok {},
    decodeResources := fun _ => .error "unexpected end of JSON input" }

/-- A server that cannot be reached: `http.Client` returns no response and an error. -/
def unreachableEnv : Env :=
  { proxmoxDomain := "pve.example",
    urlParse := fun u => .ok u,
    roundTrip := fun _ _ => (none, some "dial tcp 10.0.0.1:8006: connect: connection refused"),
    decodeAuth := fun _ => .error "EOF",
    decodeResources := fun _ => .error "EOF" }

/-- A server for which the stored ticket is stale: every GET is answered with
status 401, every other request with status 200, and a sign-in issues the ticket
ticket-2 with the CSRF token csrf-2. -/
def staleEnv : Env :=
  { proxmoxDomain := "pve.example",
    urlParse := fun u => .ok u,
    roundTrip := fun _ req =>
      if req.Method = "GET" then (some unauthorized, none) else (some okResponse, none),
    decodeAuth := fun _ =>
      .ok { Ticket := "ticket-2", Username := "root@pam", CSRFPreventionToken := "csrf-2" },
    decodeResources := fun _ => .error "EOF" }

/-- A component of a template name that the expression can recover: not empty,
free of the separator that follows it, and free of line feeds. -/
def IsComponent (sep : Char) (s : String) : Prop :=
  s ≠ "" ∧ ∀ x ∈ s.data, x ≠ sep ∧ x ≠ '\n'

instance (sep : Char) (s : String) : Decidable (IsComponent sep s) := by
  unfold IsComponent
  infer_instance

/-- The record `ParseTemplate` returns for the Ubuntu 16.04 template. -/
def ubuntuTemplate : RaijinTemplate :=
  { OS := "ubuntu", OSVersion := "16.04", Name := "standard", OSVersion2 := "16.04-1",
    Arch := "amd64" }

/-- A create request for container 100 on node A from the Ubuntu 16.04 template. -/
def createOnA : ContainerCreateRequest :=
  { MAC := "02:00:00:00:00:01",
    Template := { OS := "ubuntu", OSVersion := "16.04", Name := "standard",
                  OSVersion2 := "16.04-1", Arch := "amd64", Extension := ".tar.gz" },
    Node := "A", VMID := 100, CPUCores := 2, Memory := 1024, StorageCapacity := 8,
    StorageID := "local-lvm", Password := "secret", HostName := "web1" }

/-- The same create request with the node name pve?vmid=7. -/
def createOnQueryNode : ContainerCreateRequest := { createOnA with Node := "pve?vmid=7" }

/-- An encoder standing for `toml.NewEncoder(&buf).Encode`: it succeeds, and the
text it writes here is the line of the host name only. -/
def hostNameToml (params : ContainerCreateRequest) : Except String String :=
  .ok ("HostName = " ++ params.HostName)

/-- The server of `servingEnv []` with a URL reader that knows one URL with a
query part: `url.Parse` cuts the text at the first question mark, so for the
node name pve?vmid=7 the path ends at pve and the query part is vmid=7/lxc. -/
def queryEnv : Env :=
  { servingEnv [] with
    urlQuery := fun u =>
      if u = "https://pve.example:8006/api2/json/nodes/pve?vmid=7/lxc" then [("vmid", "7/lxc")]
      else [] }

/-- The POST request `ContainerCreate` builds for `createOnA` with the client of
`signedIn`. -/
def createOnARequest : Request :=
  createRequest (servingEnv []) signedIn.client createOnA "HostName = web1"
    { Method := "POST", URL := "https://pve.example:8006/api2/json/nodes/A/lxc" }

/-- Node A of `wrapping`: its Mem is the least 64-bit int. -/
def wrappingA : Resource :=
  { Typ := "node", Node := "A", ID := "node/A", Mem := -9223372036854775808 }

/-- Node B of `wrapping`, capacity 5. -/
def wrappingB : Resource := { Typ := "node", Node := "B", ID := "node/B", Mem := 5 }

/-- An inventory on which the loop's subtraction wraps around: node A holds the
least int and carries a container of Mem 1; node B has no container. -/
def wrapping : Resources :=
  [ wrappingA, wrappingB,
    { Typ := "lxc", Node := "A", ID := "lxc/100", Vmid := 100, Mem := 1 } ]

end Proxmox

namespace Proxmox

/-! ## The views are filters -/

theorem foldl_appendMatching (kind : String) (pr acc : List Resource) :
    pr.foldl (fun result v => if v.Typ = kind then result ++ [v] else result) acc
      = acc ++ pr.filter (fun v => decide (v.Typ = kind)) := by
  induction pr generalizing acc with
  | nil => simp
  | cons v pr ih =>
    simp only [List.foldl_cons, List.filter_cons]
    by_cases h : v.Typ = kind
    · simp [h, ih]
    · simp [h, ih]

theorem appendMatching_eq_filter (kind : String) (pr : Resources) :
    appendMatching kind pr = pr.filter (fun v => decide (v.Typ = kind)) := by
  simp [appendMatching, foldl_appendMatching]

theorem mem_appendMatching (kind : String) (pr : Resources) (r : Resource) :
    r ∈ appendMatching kind pr ↔ r ∈ pr ∧ r.Typ = kind := by
  simp [appendMatching_eq_filter, List.mem_filter]

theorem count_appendMatching (kind : String) (pr : Resources) (r : Resource) :
    (appendMatching kind pr).count r = if r.Typ = kind then pr.count r else 0 := by
  rw [appendMatching_eq_filter]
  induction pr with
  | nil => simp
  | cons v pr ih =>
    by_cases hv : v.Typ = kind
    · rw [List.filter_cons_of_pos (by simpa using hv), List.count_cons, List.count_cons, ih]
      by_cases hr : r.Typ = kind
      · simp [hr]
      · have : ¬ (v = r) := fun e => hr (e ▸ hv)
        simp [hr, this]
    · rw [List.filter_cons_of_neg (by simpa using hv), List.count_cons, ih]
      by_cases hr : r.Typ = kind
      · have : ¬ (v = r) := fun e => hv (e ▸ hr)
        simp [hr, this]
      · simp [hr]

theorem appendMatching_isKindFilter (kind : String) : IsKindFilter (appendMatching kind) kind := by
  intro pr
  refine ⟨appendMatching_eq_filter kind pr, ?_, ?_, rfl⟩
  · rw [appendMatching_eq_filter]; exact List.filter_sublist pr
  · rw [appendMatching_eq_filter, List.filter_eq_nil_iff]; simp

/-- C4: each of the five views returns exactly the records whose Type is its kind
(node, lxc, qemu, storage, template), in their original relative order; each is a
total function, empty exactly when the inventory has no record of that kind, and
empty on the empty inventory. -/
theorem views_are_kind_filters :
    IsKindFilter Nodes "node" ∧ IsKindFilter Containers "lxc" ∧ IsKindFilter VMs "qemu"
      ∧ IsKindFilter Storages "storage" ∧ IsKindFilter Templates "template" :=
  ⟨appendMatching_isKindFilter "node", appendMatching_isKindFilter "lxc",
   appendMatching_isKindFilter "qemu", appendMatching_isKindFilter "storage",
   appendMatching_isKindFilter "template"⟩

/-! ## The views and the inventory -/

/-- C3, as stated, fails: an inventory of one record of type pool has length one,
its record is in none of the five views, and the five lengths sum to zero. -/
theorem views_drop_unknown_kind :
    (Nodes poolOnly).length + (Containers poolOnly).length + (VMs poolOnly).length
        + (Storages poolOnly).length + (Templates poolOnly).length ≠ poolOnly.length
    ∧ ∃ r ∈ poolOnly, r ∉ Nodes poolOnly ∧ r ∉ Containers poolOnly ∧ r ∉ VMs poolOnly
        ∧ r ∉ Storages poolOnly ∧ r ∉ Templates poolOnly := by
  decide

/-- C3, amended: the five views hold, between them, exactly the records whose Type
is one of the five kinds, each as often as the inventory holds it; a record is in
a view only if its Type is that view's kind, hence in at most one view, and in none
when its Type is no kind; the five lengths sum to the number of records of the five
kinds, which is the inventory's length when every record has one of them. -/
theorem views_partition_known_kinds (pr : Resources) :
    List.Perm (Nodes pr ++ Containers pr ++ VMs pr ++ Storages pr ++ Templates pr)
        (pr.filter (fun v => decide (v.Typ ∈ viewKinds)))
    ∧ (∀ r ∈ pr, (r ∈ Nodes pr ↔ r.Typ = "node") ∧ (r ∈ Containers pr ↔ r.Typ = "lxc")
        ∧ (r ∈ VMs pr ↔ r.Typ = "qemu") ∧ (r ∈ Storages pr ↔ r.Typ = "storage")
        ∧ (r ∈ Templates pr ↔ r.Typ = "template"))
    ∧ (Nodes pr).length + (Containers pr).length + (VMs pr).length + (Storages pr).length
        + (Templates pr).length = (pr.filter (fun v => decide (v.Typ ∈ viewKinds))).length
    ∧ ((∀ v ∈ pr, v.Typ ∈ viewKinds) →
        List.Perm (Nodes pr ++ Containers pr ++ VMs pr ++ Storages pr ++ Templates pr) pr
        ∧ (Nodes pr).length + (Containers pr).length + (VMs pr).length + (Storages pr).length
            + (Templates pr).length = pr.length) := by
  have hperm : List.Perm (Nodes pr ++ Containers pr ++ VMs pr ++ Storages pr ++ Templates pr)
      (pr.filter (fun v => decide (v.Typ ∈ viewKinds))) := by
    rw [List.perm_iff_count]
    intro r
    simp only [List.count_append, Nodes, Containers, VMs, Storages, Templates,
      count_appendMatching]
    have hf : (pr.filter (fun v => decide (v.Typ ∈ viewKinds))).count r
        = if r.Typ ∈ viewKinds then pr.count r else 0 := by
      induction pr with
      | nil => simp
      | cons v pr ih =>
        by_cases hv : v.Typ ∈ viewKinds
        · rw [List.filter_cons_of_pos (by simpa using hv), List.count_cons, List.count_cons, ih]
          by_cases hr : r.Typ ∈ viewKinds
          · simp [hr]
          · have : ¬ (v = r) := fun e => hr (e ▸ hv)
            simp [hr, this]
        · rw [List.filter_cons_of_neg (by simpa using hv), List.count_cons, ih]
          by_cases hr : r.Typ ∈ viewKinds
          · have : ¬ (v = r) := fun e => hv (e ▸ hr)
            simp [hr, this]
          · simp [hr]
    rw [hf]
    by_cases h1 : r.Typ = "node"
    · simp [h1, viewKinds]
    by_cases h2 : r.Typ = "lxc"
    · simp [h2, viewKinds]
    by_cases h3 : r.Typ = "qemu"
    · simp [h3, viewKinds]
    by_cases h4 : r.Typ = "storage"
    · simp [h4, viewKinds]
    by_cases h5 : r.Typ = "template"
    · simp [h5, viewKinds]
    simp [h1, h2, h3, h4, h5, viewKinds]
  have hlen : (Nodes pr).length + (Containers pr).length + (VMs pr).length
      + (Storages pr).length + (Templates pr).length
      = (pr.filter (fun v => decide (v.Typ ∈ viewKinds))).length := by
    have := hperm.length_eq
    simp only [List.length_append] at this
    omega
  refine ⟨hperm, ?_, hlen, ?_⟩
  · intro r hr
    simp only [Nodes, Containers, VMs, Storages, Templates, mem_appendMatching]
    simp [hr]
  · intro hall
    have hfil : pr.filter (fun v => decide (v.Typ ∈ viewKinds)) = pr := by
      rw [List.filter_eq_self]
      intro v hv
      simpa using hall v hv
    rw [hfil] at hperm hlen
    exact ⟨hperm, hlen⟩

/-- C3, amended, at the inventory of two nodes and two containers: every record
has a known kind, and the five lengths sum to four. -/
theorem views_partition_known_kinds_witness :
    (∀ v ∈ twoNodes, v.Typ ∈ viewKinds)
    ∧ (Nodes twoNodes).length + (Containers twoNodes).length + (VMs twoNodes).length
        + (Storages twoNodes).length + (Templates twoNodes).length = twoNodes.length :=
  ⟨by decide, ((views_partition_known_kinds twoNodes).2.2.2 (by decide)).2⟩

/-! ## `GetNodeFromVMID` -/

theorem GetNodeFromVMID_skip (pre rest : Resources) (vmid : Int)
    (h : ∀ x ∈ pre, (x.Typ = "lxc" ∨ x.Typ = "qemu") → x.Vmid ≠ vmid) :
    GetNodeFromVMID (pre ++ rest) vmid = GetNodeFromVMID rest vmid := by
  induction pre with
  | nil => rfl
  | cons v pre ih =>
    have hv := h v (List.mem_cons_self v pre)
    have hpre : ∀ x ∈ pre, (x.Typ = "lxc" ∨ x.Typ = "qemu") → x.Vmid ≠ vmid :=
      fun x hx => h x (List.mem_cons_of_mem v hx)
    rw [List.cons_append, GetNodeFromVMID]
    by_cases hk : v.Typ = "lxc" ∨ v.Typ = "qemu"
    · rw [if_pos hk, if_neg (hv hk)]; exact ih hpre
    · rw [if_neg hk]; exact ih hpre

/-- C5, as stated, fails: in an inventory where a VM record placed before the
container carries the same vmid, exactly one container record carries the vmid,
yet the node returned is not that container's node. -/
theorem GetNodeFromVMID_vm_record_first :
    sharedVmid.filter (fun v => decide (v.Typ = "lxc" ∧ v.Vmid = 100)) = [sharedVmidContainer]
      ∧ GetNodeFromVMID sharedVmid 100 = ("pve1", none)
      ∧ GetNodeFromVMID sharedVmid 100 ≠ (sharedVmidContainer.Node, none) :=
  ⟨by decide, by decide, by decide⟩

/-- C5, amended: when exactly one container record carries the vmid and no VM
(qemu) record carrying it stands before that container in the inventory,
GetNodeFromVMID returns that container's Node with no error; when no container or
VM record carries the vmid it returns the empty string and the not-found error. -/
theorem GetNodeFromVMID_container_or_absent (pr : Resources) (vmid : Int) :
    (∀ (pre post : Resources) (r : Resource), pr = pre ++ r :: post →
        r.Typ = "lxc" → r.Vmid = vmid →
        (∀ x ∈ pre ++ post, x.Typ = "lxc" → x.Vmid ≠ vmid) →
        (∀ x ∈ pre, x.Typ = "qemu" → x.Vmid ≠ vmid) →
        GetNodeFromVMID pr vmid = (r.Node, none))
    ∧ ((∀ x ∈ pr, (x.Typ = "lxc" ∨ x.Typ = "qemu") → x.Vmid ≠ vmid) →
        GetNodeFromVMID pr vmid = ("", some ("Could not find node for VMID: " ++ Itoa vmid))) := by
  constructor
  · intro pre post r hpr hlxc hvmid hone hvm
    subst hpr
    have hpre : ∀ x ∈ pre, (x.Typ = "lxc" ∨ x.Typ = "qemu") → x.Vmid ≠ vmid := by
      intro x hx hk
      rcases hk with hk | hk
      · exact hone x (List.mem_append_left post hx) hk
      · exact hvm x hx hk
    rw [GetNodeFromVMID_skip pre (r :: post) vmid hpre, GetNodeFromVMID,
      if_pos (Or.inl hlxc), if_pos hvmid]
  · intro habsent
    have := GetNodeFromVMID_skip pr [] vmid habsent
    rw [List.append_nil] at this
    rw [this, GetNodeFromVMID]

/-- C5, amended, at the inventory of two nodes and two containers: vmid 101 is
carried by the container on B alone, and vmid 7 by no record. -/
theorem GetNodeFromVMID_container_or_absent_witness :
    GetNodeFromVMID twoNodes 101 = ("B", none)
    ∧ (∀ x ∈ twoNodes, (x.Typ = "lxc" ∨ x.Typ = "qemu") → x.Vmid ≠ 7)
    ∧ GetNodeFromVMID twoNodes 7 = ("", some "Could not find node for VMID: 7") :=
  ⟨(GetNodeFromVMID_container_or_absent twoNodes 101).1 (twoNodes.take 3) []
      { Typ := "lxc", Node := "B", ID := "lxc/101", Vmid := 101, Mem := 1900 }
      (by decide) (by decide) (by decide) (by decide) (by decide),
   by decide,
   (GetNodeFromVMID_container_or_absent twoNodes 7).2 (by decide)⟩

/-! ## `PickNode` -/

theorem Nodes_eq_nil_iff (resources : Resources) :
    Nodes resources = [] ↔ ∀ r ∈ resources, r.Typ ≠ "node" :=
  (appendMatching_isKindFilter "node" resources).2.2.1

theorem pickNodeFrom_no_node (resources : Resources) (h : ∀ r ∈ resources, r.Typ ≠ "node") :
    pickNodeFrom resources = ("", some "no nodes found") := by
  have hn : Nodes resources = [] := (Nodes_eq_nil_iff resources).2 h
  simp [pickNodeFrom, hn]

theorem pickNodeFrom_some_node (resources : Resources) (h : ∃ r ∈ resources, r.Typ = "node") :
    ∃ name, pickNodeFrom resources = (name, none) := by
  have hn : Nodes resources ≠ [] := by
    intro hnil
    obtain ⟨r, hr, hk⟩ := h
    exact (Nodes_eq_nil_iff resources).1 hnil r hr hk
  unfold pickNodeFrom
  cases hN : Nodes resources with
  | nil => exact absurd hN hn
  | cons first rest => exact ⟨_, rfl⟩

theorem PickNode_of_fetch (env : Env) (s s1 : Session) (resources : Resources)
    (hfetch : ResourceList env s = (.ret (resources, none), s1)) :
    PickNode env s = (.ret (pickNodeFrom resources), s1) := by
  simp [PickNode, hfetch]

/-! ### The placement loop in general -/

theorem wrapInt_of_inRange (x : Int) (hlo : -(2 : Int) ^ 63 ≤ x) (hhi : x < (2 : Int) ^ 63) :
    wrapInt x = x := by
  unfold wrapInt
  have h0 : (0 : Int) ≤ x + 2 ^ 63 := by omega
  have h1 : x + 2 ^ 63 < 2 ^ 64 := by omega
  rw [Int.emod_eq_of_lt h0 h1]
  omega

theorem subtractProvisioned_exact (name : String) (containers : List Resource) (acc : Int)
    (hacc : acc < (2 : Int) ^ 63) (hpos : ∀ c ∈ containers, 0 ≤ c.Mem)
    (hlo : -(2 : Int) ^ 63 ≤ acc
      - ((containers.filter (fun c => decide (c.Node = name))).map (fun c => c.Mem)).sum) :
    subtractProvisioned name containers acc
      = acc - ((containers.filter (fun c => decide (c.Node = name))).map (fun c => c.Mem)).sum := by
  induction containers generalizing acc with
  | nil => simp [subtractProvisioned]
  | cons c cs ih =>
    have hc := hpos c (List.mem_cons_self c cs)
    have hcs : ∀ d ∈ cs, 0 ≤ d.Mem := fun d hd => hpos d (List.mem_cons_of_mem c hd)
    have hsum : 0 ≤ ((cs.filter (fun c => decide (c.Node = name))).map (fun c => c.Mem)).sum := by
      apply List.sum_nonneg
      intro x hx
      simp only [List.mem_map, List.mem_filter] at hx
      obtain ⟨d, ⟨hd, _⟩, rfl⟩ := hx
      exact hcs d hd
    unfold subtractProvisioned at ih ⊢
    rw [List.foldl_cons]
    by_cases hn : c.Node = name
    · have hfil : (c :: cs).filter (fun c => decide (c.Node = name))
          = c :: cs.filter (fun c => decide (c.Node = name)) :=
        List.filter_cons_of_pos (by simpa using hn)
      rw [hfil, List.map_cons, List.sum_cons] at hlo ⊢
      rw [if_pos hn, wrapInt_of_inRange (acc - c.Mem) (by omega) (by omega)]
      rw [ih (acc - c.Mem) (by omega) hcs (by omega)]
      omega
    · have hfil : (c :: cs).filter (fun c => decide (c.Node = name))
          = cs.filter (fun c => decide (c.Node = name)) :=
        List.filter_cons_of_neg (by simpa using hn)
      rw [hfil] at hlo ⊢
      rw [if_neg hn]
      exact ih acc hacc hcs hlo

theorem nonProvisionedMemory_eq_availableSpec (resources : Resources) (node : Resource)
    (hnode : node.Mem < (2 : Int) ^ 63)
    (hpos : ∀ c ∈ resources, c.Typ = "lxc" → 0 ≤ c.Mem)
    (hlo : -(2 : Int) ^ 63 ≤ availableSpec resources node) :
    nonProvisionedMemory (Containers resources) node = availableSpec resources node := by
  have hfil : (Containers resources).filter (fun c => decide (c.Node = node.Node))
      = resources.filter (fun r => decide (r.Typ = "lxc" ∧ r.Node = node.Node)) := by
    rw [Containers, appendMatching_eq_filter, List.filter_filter]
    congr 1
    funext r
    simp [and_comm]
  have hpos2 : ∀ c ∈ Containers resources, 0 ≤ c.Mem := by
    intro c hc
    rw [Containers, mem_appendMatching] at hc
    exact hpos c hc.1 hc.2
  unfold nonProvisionedMemory
  rw [subtractProvisioned_exact node.Node (Containers resources) node.Mem hnode hpos2
    (by rw [hfil]; exact hlo), hfil]
  rfl

theorem pickLoop_none_greater (containers nodes : List Resource) (result : String) (most : Int)
    (h : ∀ n ∈ nodes, nonProvisionedMemory containers n ≤ most) :
    pickLoop containers nodes result most = result := by
  induction nodes with
  | nil => rfl
  | cons n rest ih =>
    have hn := h n (List.mem_cons_self n rest)
    rw [pickLoop, if_neg (by omega)]
    exact ih (fun m hm => h m (List.mem_cons_of_mem n hm))

theorem pickLoop_first_greatest (containers pre post : List Resource) (n : Resource)
    (result : String) (most : Int)
    (hpre : ∀ m ∈ pre, nonProvisionedMemory containers m < nonProvisionedMemory containers n)
    (hpost : ∀ m ∈ post, nonProvisionedMemory containers m ≤ nonProvisionedMemory containers n)
    (hmost : most < nonProvisionedMemory containers n) :
    pickLoop containers (pre ++ n :: post) result most = n.Node := by
  induction pre generalizing result most with
  | nil =>
    rw [List.nil_append, pickLoop, if_pos (by omega)]
    exact pickLoop_none_greater containers post n.Node _ hpost
  | cons m pre ih =>
    have hm := hpre m (List.mem_cons_self m pre)
    have hpre2 : ∀ x ∈ pre,
        nonProvisionedMemory containers x < nonProvisionedMemory containers n :=
      fun x hx => hpre x (List.mem_cons_of_mem m hx)
    rw [List.cons_append, pickLoop]
    by_cases hgt : nonProvisionedMemory containers m > most
    · rw [if_pos hgt]; exact ih m.Node _ hpre2 hm
    · rw [if_neg hgt]; exact ih result most hpre2 hmost

/-- C1, at the failing input: the listing is fetched without error, its nodes
are A then B, B has the strictly greater capacity minus provisioned memory
(-2999999000 against -3000000000), and PickNode returns A.  On the inventory of
the specification's example (800 against 100) PickNode returns A, as claimed. -/
theorem PickNode_overcommitted_returns_first :
    (ResourceList (servingEnv overcommitted) signedIn).1 = .ret (overcommitted, none)
    ∧ Nodes overcommitted = [overcommittedA, overcommittedB]
    ∧ availableSpec overcommitted overcommittedA = -3000000000
    ∧ availableSpec overcommitted overcommittedB = -2999999000
    ∧ (PickNode (servingEnv overcommitted) signedIn).1 = .ret (overcommittedA.Node, none)
    ∧ (PickNode (servingEnv twoNodes) signedIn).1 = .ret ("A", none) :=
  ⟨by decide, by decide, by decide, by decide, by decide, by decide⟩

/-- C2: once the inventory is fetched without error, PickNode returns the empty
identifier with the error "no nodes found" exactly when the inventory holds no
record of kind node, whatever else it holds, and returns an identifier with no
error exactly when it holds one. -/
theorem PickNode_fails_iff_no_node (env : Env) (s s1 : Session) (resources : Resources)
    (hfetch : ResourceList env s = (.ret (resources, none), s1)) :
    ((∀ r ∈ resources, r.Typ ≠ "node")
        ↔ PickNode env s = (.ret ("", some "no nodes found"), s1))
    ∧ ((∃ r ∈ resources, r.Typ = "node")
        ↔ ∃ name, PickNode env s = (.ret (name, none), s1)) := by
  rw [PickNode_of_fetch env s s1 resources hfetch]
  by_cases h : ∃ r ∈ resources, r.Typ = "node"
  · obtain ⟨name, hname⟩ := pickNodeFrom_some_node resources h
    have hnot : ¬ ∀ r ∈ resources, r.Typ ≠ "node" := by
      intro hall
      obtain ⟨r, hr, hk⟩ := h
      exact hall r hr hk
    rw [hname]
    constructor
    · constructor
      · intro hall; exact absurd hall hnot
      · intro heq; simp at heq
    · constructor
      · intro _; exact ⟨name, rfl⟩
      · intro _; exact h
  · have hall : ∀ r ∈ resources, r.Typ ≠ "node" := by
      intro r hr hk
      exact h ⟨r, hr, hk⟩
    rw [pickNodeFrom_no_node resources hall]
    constructor
    · constructor
      · intro _; rfl
      · intro _; exact hall
    · constructor
      · intro hex; exact absurd hex h
      · intro hex
        obtain ⟨name, hname⟩ := hex
        simp at hname

/-- C2 at an inventory of a container, a VM, a storage and a template, fetched
without error: it has no node record and PickNode fails with "no nodes found". -/
theorem PickNode_fails_iff_no_node_witness :
    (∀ r ∈ noNodes, r.Typ ≠ "node")
    ∧ (PickNode (servingEnv noNodes) signedIn).1 = .ret ("", some "no nodes found") :=
  ⟨by decide,
   congrArg Prod.fst
     (((PickNode_fails_iff_no_node (servingEnv noNodes) signedIn
        (ResourceList (servingEnv noNodes) signedIn).2 noNodes (by decide)).1).1 (by decide))⟩

/-! ## `SignIn` and `VerifyTicket` -/

/-- C6, on the code: for a sign-in response with a status other than 200, SignIn
panics when the body does not decode, and otherwise returns the error "Could not
auth" after it has replaced the stored Ticket and CSRFToken by the decoded ones. -/
theorem SignIn_rejected_stores_decoded (env : Env) (s : Session) (u : String)
    (resp : Response)
    (hu : env.urlParse (s.client.host ++ "/api2/json/access/ticket") = .ok u)
    (hresp : env.roundTrip s.sent (ticketRequest s.client u) = (some resp, none))
    (hstatus : resp.StatusCode ≠ StatusOK) :
    match env.decodeAuth resp.Body with
    | .error e => (SignIn env s).1 = .panic (Wrap e "Could not decode JSON")
    | .ok a =>
      (SignIn env s).1 = .ret (some ("Could not auth: " ++ resp.Status))
      ∧ (SignIn env s).2.client.Ticket = a.Ticket
      ∧ (SignIn env s).2.client.CSRFToken = a.CSRFPreventionToken := by
  cases hdec : env.decodeAuth resp.Body with
  | error e => simp [SignIn, hu, hresp, hdec]
  | ok a => simp [SignIn, hu, hresp, hdec, hstatus]

/-- C6 at the failing input: a session holding ticket-1 and csrf-1 signs in, the
server answers 401 with a body that decodes to empty fields; SignIn returns an
error, and the stored Ticket and CSRFToken are now empty. -/
theorem SignIn_rejected_stores_decoded_witness :
    signedIn.client.Ticket = "ticket-1" ∧ signedIn.client.CSRFToken = "csrf-1"
    ∧ (SignIn rejectingEnv signedIn).1 = .ret (some "Could not auth: 401 authentication failure")
    ∧ (SignIn rejectingEnv signedIn).2.client.Ticket = ""
    ∧ (SignIn rejectingEnv signedIn).2.client.CSRFToken = "" :=
  ⟨rfl, rfl,
   SignIn_rejected_stores_decoded rejectingEnv signedIn
     "https://pve.example:8006/api2/json/access/ticket" unauthorized
     rfl rfl (by decide)⟩

/-- C7, on the code: when the probe is answered, VerifyTicket returns (true, nil)
exactly when the status is 200; for any other status it returns false together
with the error "Could not do auth check: " followed by the status text. -/
theorem VerifyTicket_on_response (env : Env) (s : Session) (u : String) (resp : Response)
    (hu : env.urlParse (s.client.host ++ "/api2/json/version") = .ok u)
    (hresp : (env.roundTrip s.sent (getRequest s.client u)).1 = some resp) :
    (resp.StatusCode = StatusOK →
        (VerifyTicket env s).1 = .ret (true, none))
    ∧ (resp.StatusCode ≠ StatusOK →
        (VerifyTicket env s).1 = .ret (false, some ("Could not do auth check: " ++ resp.Status)))
    ∧ ((VerifyTicket env s).1 = .ret (true, none) ↔ resp.StatusCode = StatusOK) := by
  by_cases hst : resp.StatusCode = StatusOK
  · simp [VerifyTicket, hu, hresp, hst]
  · simp [VerifyTicket, hu, hresp, hst]

/-- C7 at the failing input: the probe of a signed-in session is answered 401, and
VerifyTicket returns false with an error, not false with nil. -/
theorem VerifyTicket_on_response_witness :
    unauthorized.StatusCode ≠ StatusOK
    ∧ (VerifyTicket rejectingEnv signedIn).1
        = .ret (false, some "Could not do auth check: 401 authentication failure") :=
  ⟨by decide,
   (VerifyTicket_on_response rejectingEnv signedIn "https://pve.example:8006/api2/json/version"
      unauthorized rfl rfl).2.1 (by decide)⟩

/-- C8, on the code: when `http.Client` returns no response for the probe,
VerifyTicket reads the status of the nil response and panics; it returns nothing. -/
theorem VerifyTicket_no_response_panics (env : Env) (s : Session) (u : String)
    (hu : env.urlParse (s.client.host ++ "/api2/json/version") = .ok u)
    (hresp : (env.roundTrip s.sent (getRequest s.client u)).1 = none) :
    (VerifyTicket env s).1 = .panic nilDereference
    ∧ ∀ r, (VerifyTicket env s).1 ≠ .ret r := by
  have h : (VerifyTicket env s).1 = .panic nilDereference := by
    simp [VerifyTicket, hu, hresp]
  refine ⟨h, ?_⟩
  intro r hr
  rw [h] at hr
  cases hr

/-- C8 at the failing input: the server refuses the connection, `http.Client`
returns (nil, error), and VerifyTicket panics. -/
theorem VerifyTicket_no_response_panics_witness :
    unreachableEnv.roundTrip signedIn.sent
        (getRequest signedIn.client "https://pve.example:8006/api2/json/version")
      = (none, some "dial tcp 10.0.0.1:8006: connect: connection refused")
    ∧ (VerifyTicket unreachableEnv signedIn).1 = .panic nilDereference :=
  ⟨rfl,
   (VerifyTicket_no_response_panics unreachableEnv signedIn
      "https://pve.example:8006/api2/json/version" rfl rfl).1⟩

/-! ## `vmStatusPOSTHelper` -/

/-- C9, on the code: when the probe of a status action is answered with a status
other than 200, vmStatusPOSTHelper returns the error of VerifyTicket at once: the
probe is the only request made (no sign-in, no action request) and the client is
left as it was. -/
theorem vmStatusPOSTHelper_stale_returns_probe_error (env : Env) (action node : String)
    (containerID : Int) (vmType : String) (s : Session) (u : String) (resp : Response)
    (hu : env.urlParse (s.client.host ++ "/api2/json/version") = .ok u)
    (hresp : (env.roundTrip s.sent (getRequest s.client u)).1 = some resp)
    (hstatus : resp.StatusCode ≠ StatusOK) :
    vmStatusPOSTHelper env action node containerID vmType s
      = (.ret (some ("Could not do auth check: " ++ resp.Status)),
         { s with sent := s.sent ++ [getRequest s.client u] }) := by
  simp [vmStatusPOSTHelper, verifyThenSignIn, VerifyTicket, hu, hresp, hstatus]

/-- C9 at the failing input: the stored ticket is stale, a sign-in would succeed
and issue csrf-2, and a start of container 100 on node A makes one GET request,
no POST, and returns the error of the probe. -/
theorem vmStatusPOSTHelper_stale_returns_probe_error_witness :
    (SignIn staleEnv signedIn).1 = .ret none
    ∧ (SignIn staleEnv signedIn).2.client.CSRFToken = "csrf-2"
    ∧ (vmStatusPOSTHelper staleEnv "start" "A" 100 "lxc" signedIn).1
        = .ret (some "Could not do auth check: 401 authentication failure")
    ∧ (vmStatusPOSTHelper staleEnv "start" "A" 100 "lxc" signedIn).2.sent
        = [getRequest signedIn.client "https://pve.example:8006/api2/json/version"] :=
  ⟨by decide, by decide,
   congrArg Prod.fst (vmStatusPOSTHelper_stale_returns_probe_error staleEnv "start" "A" 100 "lxc"
      signedIn "https://pve.example:8006/api2/json/version" unauthorized
      rfl rfl (by decide)),
   congrArg (fun r => r.2.sent) (vmStatusPOSTHelper_stale_returns_probe_error staleEnv "start"
      "A" 100 "lxc" signedIn "https://pve.example:8006/api2/json/version" unauthorized
      rfl rfl (by decide))⟩

/-! ## `ParseTemplate` -/

theorem lazyRun_skip (k : List Char → Option (List (List Char) × List Char)) (c : Char)
    (hk : ∀ x rest, x ≠ c → k (x :: rest) = none)
    (a taken t : List Char) (ha : ∀ x ∈ a, x ≠ c ∧ x ≠ '\n') :
    lazyRun k taken (a ++ t) = lazyRun k (taken ++ a) t := by
  induction a generalizing taken with
  | nil => simp
  | cons x a ih =>
    have hx := ha x (List.mem_cons_self x a)
    have ha' : ∀ y ∈ a, y ≠ c ∧ y ≠ '\n' := fun y hy => ha y (List.mem_cons_of_mem x hy)
    rw [List.cons_append, lazyRun, hk x (a ++ t) hx.1]
    simp only [if_neg hx.2]
    rw [ih (taken ++ [x]) ha']
    simp

theorem lazyRun_hit (k : List Char → Option (List (List Char) × List Char))
    (taken t : List Char) (r : List (List Char) × List Char) (h : k t = some r) :
    lazyRun k taken t = some (taken :: r.1, r.2) := by
  cases t with
  | nil => simp [lazyRun, h]
  | cons x rest => simp [lazyRun, h]

theorem matchItems_lit_ne (c : Char) (items : List Item) (x : Char) (rest : List Char)
    (h : x ≠ c) : matchItems (.lit c :: items) (x :: rest) = none := by
  simp [matchItems, h]

theorem matchItems_group_lit (c : Char) (items : List Item) (a t : List Char)
    (r : List (List Char) × List Char)
    (ha : ∀ x ∈ a, x ≠ c ∧ x ≠ '\n') (ht : matchItems items t = some r) :
    matchItems (.lazyGroup :: .lit c :: items) (a ++ c :: t) = some (a :: r.1, r.2) := by
  rw [matchItems, lazyRun_skip _ c (fun x rest hx => matchItems_lit_ne c items x rest hx) a [] _ ha]
  have hk : matchItems (.lit c :: items) (c :: t) = some r := by
    simp [matchItems, ht]
  rw [lazyRun_hit _ _ _ r hk]
  simp

theorem findLeftmost_skip (c : Char) (items : List Item) (pre s : List Char)
    (hpre : ∀ x ∈ pre, x ≠ c) :
    findLeftmost (.lit c :: items) (pre ++ s) = findLeftmost (.lit c :: items) s := by
  induction pre with
  | nil => rfl
  | cons x pre ih =>
    have hx := hpre x (List.mem_cons_self x pre)
    rw [List.cons_append, findLeftmost, matchItems_lit_ne c items x (pre ++ s) hx]
    exact ih (fun y hy => hpre y (List.mem_cons_of_mem x hy))

theorem matchItems_templateExpr (os ver name ver2 arch ext : List Char)
    (hos : ∀ x ∈ os, x ≠ '-' ∧ x ≠ '\n') (hver : ∀ x ∈ ver, x ≠ '-' ∧ x ≠ '\n')
    (hname : ∀ x ∈ name, x ≠ '_' ∧ x ≠ '\n') (hver2 : ∀ x ∈ ver2, x ≠ '_' ∧ x ≠ '\n')
    (harch : ∀ x ∈ arch, x ≠ '.' ∧ x ≠ '\n') :
    matchItems templateExpr
        ('/' :: (os ++ '-' :: (ver ++ '-' :: (name ++ '_' :: (ver2 ++ '_' :: (arch ++ '.' :: ext))))))
      = some ([os, ver, name, ver2, arch], ext) := by
  have h0 : matchItems [] ext = some ([], ext) := rfl
  have h5 := matchItems_group_lit '.' [] arch ext _ harch h0
  have h4 := matchItems_group_lit '_' _ ver2 _ _ hver2 h5
  have h3 := matchItems_group_lit '_' _ name _ _ hname h4
  have h2 := matchItems_group_lit '-' _ ver _ _ hver h3
  have h1 := matchItems_group_lit '-' _ os _ _ hos h2
  rw [templateExpr, matchItems]
  simpa using h1

theorem FindStringSubmatch_templateExpr (pre os ver name ver2 arch ext : String)
    (hpre : ∀ x ∈ pre.data, x ≠ '/')
    (hos : ∀ x ∈ os.data, x ≠ '-' ∧ x ≠ '\n') (hver : ∀ x ∈ ver.data, x ≠ '-' ∧ x ≠ '\n')
    (hname : ∀ x ∈ name.data, x ≠ '_' ∧ x ≠ '\n') (hver2 : ∀ x ∈ ver2.data, x ≠ '_' ∧ x ≠ '\n')
    (harch : ∀ x ∈ arch.data, x ≠ '.' ∧ x ≠ '\n') :
    ∃ whole : String, whole ≠ "" ∧
      FindStringSubmatch templateExpr
          (pre ++ "/" ++ os ++ "-" ++ ver ++ "-" ++ name ++ "_" ++ ver2 ++ "_" ++ arch ++ "." ++ ext)
        = [whole, os, ver, name, ver2, arch] := by
  have hdata : (pre ++ "/" ++ os ++ "-" ++ ver ++ "-" ++ name ++ "_" ++ ver2 ++ "_" ++ arch
        ++ "." ++ ext).data
      = pre.data ++ ('/' :: (os.data ++ '-' :: (ver.data ++ '-' :: (name.data ++ '_' ::
          (ver2.data ++ '_' :: (arch.data ++ '.' :: ext.data)))))) := by
    simp [String.data_append]
  have hm := matchItems_templateExpr os.data ver.data name.data ver2.data arch.data ext.data
    hos hver hname hver2 harch
  have hf := findLeftmost_skip '/' templateExpr.tail pre.data
    ('/' :: (os.data ++ '-' :: (ver.data ++ '-' :: (name.data ++ '_' ::
          (ver2.data ++ '_' :: (arch.data ++ '.' :: ext.data)))))) hpre
  have hexpr : Item.lit '/' :: templateExpr.tail = templateExpr := rfl
  rw [hexpr] at hf
  unfold FindStringSubmatch
  rw [hdata, hf, findLeftmost, hm]
  refine ⟨String.mk (List.take
      (('/' :: (os.data ++ '-' :: (ver.data ++ '-' :: (name.data ++ '_' ::
          (ver2.data ++ '_' :: (arch.data ++ '.' :: ext.data)))))).length - ext.data.length)
      ('/' :: (os.data ++ '-' :: (ver.data ++ '-' :: (name.data ++ '_' ::
          (ver2.data ++ '_' :: (arch.data ++ '.' :: ext.data))))))), ?_, rfl⟩
  intro hempty
  have hd := congrArg String.data hempty
  have hlen := congrArg List.length hd
  simp at hlen
  omega

/-- C10, as stated, fails: on a name of the stated form ParseTemplate does not
return at all (no match, and the index into the empty result panics); and on that
name behind a path, where it does return, the record has an empty Extension and
its String form is neither the name nor the input. -/
theorem ParseTemplate_no_round_trip :
    ParseTemplate "ubuntu-16.04-standard_16.04-1_amd64.tar.gz" = .panic (indexOutOfRange 1 0)
    ∧ ParseTemplate "local:vztmpl/ubuntu-16.04-standard_16.04-1_amd64.tar.gz"
        = .ret (some ubuntuTemplate, none)
    ∧ ubuntuTemplate.Extension = ""
    ∧ ubuntuTemplate.toParsed.String = "ubuntu-16.04-standard_16.04-1_amd64"
    ∧ ubuntuTemplate.toParsed.String ≠ "ubuntu-16.04-standard_16.04-1_amd64.tar.gz" := by
  decide

/-- C10, amended: for an input made of a prefix without '/', then '/', then
OS-OSVersion-Name_OSVersion2_Arch, then '.' and any rest, where the five components
are non-empty, hold no line feed, OS and OSVersion hold no '-', Name and OSVersion2
no '_' and Arch no '.', ParseTemplate succeeds with these five fields and an empty
Extension, and the String format of that record is OS-OSVersion-Name_OSVersion2_Arch,
the input without its prefix and without what follows Arch. -/
theorem ParseTemplate_fields_and_string (pre os ver name ver2 arch ext : String)
    (hpre : ∀ x ∈ pre.data, x ≠ '/')
    (hos : IsComponent '-' os) (hver : IsComponent '-' ver)
    (hname : IsComponent '_' name) (hver2 : IsComponent '_' ver2)
    (harch : IsComponent '.' arch) :
    ParseTemplate
        (pre ++ "/" ++ os ++ "-" ++ ver ++ "-" ++ name ++ "_" ++ ver2 ++ "_" ++ arch ++ "." ++ ext)
      = .ret (some { OS := os, OSVersion := ver, Name := name, OSVersion2 := ver2,
                     Arch := arch, Extension := "" }, none)
    ∧ ParsedTemplate.String (RaijinTemplate.toParsed
          { OS := os, OSVersion := ver, Name := name, OSVersion2 := ver2, Arch := arch,
            Extension := "" })
        = os ++ "-" ++ ver ++ "-" ++ name ++ "_" ++ ver2 ++ "_" ++ arch := by
  obtain ⟨whole, hwhole, hfind⟩ := FindStringSubmatch_templateExpr pre os ver name ver2 arch ext
    hpre hos.2 hver.2 hname.2 hver2.2 harch.2
  constructor
  · unfold ParseTemplate
    rw [hfind]
    simp [hwhole, hos.1, hver.1, hname.1, hver2.1, harch.1]
  · simp [ParsedTemplate.String, RaijinTemplate.toParsed]

/-- C10, amended, at the Ubuntu 16.04 template behind the path local:vztmpl. -/
theorem ParseTemplate_fields_and_string_witness :
    IsComponent '-' "ubuntu" ∧ IsComponent '_' "16.04-1" ∧ IsComponent '.' "amd64"
    ∧ ParseTemplate ("local:vztmpl" ++ "/" ++ "ubuntu" ++ "-" ++ "16.04" ++ "-" ++ "standard"
          ++ "_" ++ "16.04-1" ++ "_" ++ "amd64" ++ "." ++ "tar.gz")
        = .ret (some ubuntuTemplate, none) :=
  ⟨by decide, by decide, by decide,
   (ParseTemplate_fields_and_string "local:vztmpl" "ubuntu" "16.04" "standard" "16.04-1" "amd64"
      "tar.gz" (by decide) (by decide) (by decide) (by decide) (by decide) (by decide)).1⟩

/-! ## `ParseTemplate` on an input the expression does not match -/

theorem ParseTemplate_returned_record (templateStr : String) (t : RaijinTemplate)
    (e : Option String) (h : ParseTemplate templateStr = .ret (some t, e)) :
    t.OS ≠ "" ∧ t.OSVersion ≠ "" ∧ t.Name ≠ "" ∧ t.OSVersion2 ≠ "" ∧ t.Arch ≠ ""
      ∧ e = none := by
  unfold ParseTemplate at h
  dsimp only at h
  split at h
  · cases h
  · split at h
    · cases h
    · split at h
      · cases h
      · split at h
        · cases h
        · split at h
          · cases h
          · split at h
            · cases h
            · split at h
              · cases h
              · rename_i hne
                simp only [not_or] at hne
                simp only [Outcome.ret.injEq, Prod.mk.injEq, Option.some.injEq] at h
                obtain ⟨ht, he⟩ := h
                subst ht
                exact ⟨hne.2.1, hne.2.2.1, hne.2.2.2.1, hne.2.2.2.2.1, hne.2.2.2.2.2, he.symm⟩

/-- C11, on the code: when the expression does not match the input,
FindStringSubmatch returns the nil slice and ParseTemplate panics on the index
expression `result[1]`; it returns neither a template nor the error "no matches
found from template".  What does hold: a record, when one is returned, has no
empty OS, OSVersion, Name, OSVersion2 or Arch field. -/
theorem ParseTemplate_no_match_panics (templateStr : String) :
    (FindStringSubmatch templateExpr templateStr = [] →
        ParseTemplate templateStr = .panic (indexOutOfRange 1 0)
        ∧ ∀ r, ParseTemplate templateStr ≠ .ret r)
    ∧ (∀ t e, ParseTemplate templateStr = .ret (some t, e) →
        t.OS ≠ "" ∧ t.OSVersion ≠ "" ∧ t.Name ≠ "" ∧ t.OSVersion2 ≠ "" ∧ t.Arch ≠ "") := by
  constructor
  · intro hno
    have hp : ParseTemplate templateStr = .panic (indexOutOfRange 1 0) := by
      simp [ParseTemplate, hno]
    refine ⟨hp, ?_⟩
    intro r hr
    rw [hp] at hr
    cases hr
  · intro t e h
    obtain ⟨h1, h2, h3, h4, h5, _⟩ := ParseTemplate_returned_record templateStr t e h
    exact ⟨h1, h2, h3, h4, h5⟩

/-- C11 at the failing inputs: the empty string and a name without separators
are not matched, and ParseTemplate panics on both. -/
theorem ParseTemplate_no_match_panics_witness :
    FindStringSubmatch templateExpr "" = []
    ∧ ParseTemplate "" = .panic (indexOutOfRange 1 0)
    ∧ FindStringSubmatch templateExpr "debian" = []
    ∧ ParseTemplate "debian" = .panic (indexOutOfRange 1 0) :=
  ⟨by decide, ((ParseTemplate_no_match_panics "").1 (by decide)).1,
   by decide, ((ParseTemplate_no_match_panics "debian").1 (by decide)).1⟩

/-! ## The selection loop of `PickNode` and its sentinel -/

theorem exists_first_greatest (f : Resource → Int) (l : List Resource) (hl : l ≠ []) :
    ∃ pre n post, l = pre ++ n :: post ∧ (∀ m ∈ pre, f m < f n) ∧ (∀ m ∈ post, f m ≤ f n) := by
  induction l with
  | nil => exact absurd rfl hl
  | cons a l ih =>
    by_cases hnil : l = []
    · subst hnil
      exact ⟨[], a, [], rfl, by simp, by simp⟩
    · obtain ⟨pre, n, post, hdec, hpre, hpost⟩ := ih hnil
      by_cases hge : f n ≤ f a
      · refine ⟨[], a, l, rfl, by simp, ?_⟩
        intro m hm
        rw [hdec] at hm
        rcases List.mem_append.1 hm with h | h
        · have := hpre m h
          omega
        · rcases List.mem_cons.1 h with h | h
          · rw [h]; exact hge
          · have := hpost m h
            omega
      · refine ⟨a :: pre, n, post, by rw [hdec]; rfl, ?_, hpost⟩
        intro m hm
        rcases List.mem_cons.1 hm with h | h
        · rw [h]; omega
        · exact hpre m h

theorem subtractProvisioned_insert (name : String) (a b : List Resource) (x : Resource)
    (acc : Int) (hx : x.Node ≠ name) :
    subtractProvisioned name (a ++ x :: b) acc = subtractProvisioned name (a ++ b) acc := by
  simp [subtractProvisioned, List.foldl_append, hx]

theorem pickLoop_congr (cs cs2 nodes : List Resource) (result : String) (most : Int)
    (h : ∀ n ∈ nodes, nonProvisionedMemory cs n = nonProvisionedMemory cs2 n) :
    pickLoop cs nodes result most = pickLoop cs2 nodes result most := by
  induction nodes generalizing result most with
  | nil => rfl
  | cons n rest ih =>
    have hrest : ∀ m ∈ rest, nonProvisionedMemory cs m = nonProvisionedMemory cs2 m :=
      fun m hm => h m (List.mem_cons_of_mem n hm)
    rw [pickLoop, pickLoop, h n (List.mem_cons_self n rest)]
    split
    · exact ih _ _ hrest
    · exact ih _ _ hrest

theorem appendMatching_insert_other (kind : String) (pre post : Resources) (x : Resource)
    (hx : x.Typ ≠ kind) :
    appendMatching kind (pre ++ x :: post) = appendMatching kind (pre ++ post) := by
  simp [appendMatching_eq_filter, List.filter_append, hx]

theorem appendMatching_insert_same (kind : String) (pre post : Resources) (x : Resource)
    (hx : x.Typ = kind) :
    appendMatching kind (pre ++ x :: post)
      = appendMatching kind pre ++ x :: appendMatching kind post := by
  simp [appendMatching_eq_filter, List.filter_append, hx]

theorem appendMatching_append (kind : String) (pre post : Resources) :
    appendMatching kind (pre ++ post) = appendMatching kind pre ++ appendMatching kind post := by
  simp [appendMatching_eq_filter, List.filter_append]

theorem pickNodeFrom_insert (pre post : Resources) (x : Resource) (hnode : x.Typ ≠ "node")
    (hlxc : x.Typ = "lxc" → ∀ n ∈ Nodes (pre ++ post), n.Node ≠ x.Node) :
    pickNodeFrom (pre ++ x :: post) = pickNodeFrom (pre ++ post) := by
  have hN : Nodes (pre ++ x :: post) = Nodes (pre ++ post) :=
    appendMatching_insert_other "node" pre post x hnode
  unfold pickNodeFrom
  rw [hN]
  cases hnodes : Nodes (pre ++ post) with
  | nil => rfl
  | cons first rest =>
    simp only
    by_cases hk : x.Typ = "lxc"
    · have hC : Containers (pre ++ x :: post) = Containers pre ++ x :: Containers post :=
        appendMatching_insert_same "lxc" pre post x hk
      have hC2 : Containers (pre ++ post) = Containers pre ++ Containers post :=
        appendMatching_append "lxc" pre post
      rw [hC, hC2]
      congr 1
      apply pickLoop_congr
      intro n hn
      have hne : x.Node ≠ n.Node := by
        intro heq
        exact hlxc hk n (by rw [hnodes]; exact hn) heq.symm
      exact subtractProvisioned_insert n.Node _ _ x n.Mem hne
    · have hC : Containers (pre ++ x :: post) = Containers (pre ++ post) :=
        appendMatching_insert_other "lxc" pre post x hk
      rw [hC]

theorem pickNodeFrom_by_loop_value (resources : Resources) (first : Resource)
    (rest : List Resource) (hnodes : Nodes resources = first :: rest) :
    ((∃ m ∈ Nodes resources, MinInt32 < nonProvisionedMemory (Containers resources) m) →
        ∃ pre n post, Nodes resources = pre ++ n :: post
          ∧ (∀ m ∈ pre, nonProvisionedMemory (Containers resources) m
                < nonProvisionedMemory (Containers resources) n)
          ∧ (∀ m ∈ post, nonProvisionedMemory (Containers resources) m
                ≤ nonProvisionedMemory (Containers resources) n)
          ∧ pickNodeFrom resources = (n.Node, none))
    ∧ ((∀ m ∈ Nodes resources, nonProvisionedMemory (Containers resources) m ≤ MinInt32) →
        pickNodeFrom resources = (first.Node, none)) := by
  have hbody : pickNodeFrom resources
      = (pickLoop (Containers resources) (first :: rest) first.Node MinInt32, none) := by
    simp [pickNodeFrom, hnodes]
  constructor
  · intro hex
    obtain ⟨m, hm, hgt⟩ := hex
    obtain ⟨pre, n, post, hdec, hpre, hpost⟩ :=
      exists_first_greatest (nonProvisionedMemory (Containers resources)) (first :: rest)
        (by simp)
    have hmn : nonProvisionedMemory (Containers resources) m
        ≤ nonProvisionedMemory (Containers resources) n := by
      rw [hnodes, hdec] at hm
      rcases List.mem_append.1 hm with h | h
      · exact le_of_lt (hpre m h)
      · rcases List.mem_cons.1 h with h | h
        · rw [h]
        · exact hpost m h
    refine ⟨pre, n, post, by rw [hnodes, hdec], hpre, hpost, ?_⟩
    rw [hbody, hdec,
      pickLoop_first_greatest (Containers resources) pre post n first.Node MinInt32 hpre hpost
        (by omega)]
  · intro hall
    rw [hbody, pickLoop_none_greater (Containers resources) (first :: rest) first.Node MinInt32
      (by rw [← hnodes]; exact hall)]

/-- C14, as stated, fails: with node A of Mem -2^63 carrying a container of Mem 1
and node B of Mem 5, the available values (Mem minus the sum of the containers'
Mem) are -2^63 - 1 for A and 5 for B, so B is above math.MinInt32 and alone
attains the maximum; the loop's subtraction for A wraps around to 2^63 - 1 and
PickNode returns A. -/
theorem PickNode_wrapped_value_wins :
    Nodes wrapping = [wrappingA, wrappingB]
    ∧ availableSpec wrapping wrappingA = -9223372036854775809
    ∧ availableSpec wrapping wrappingB = 5
    ∧ MinInt32 < availableSpec wrapping wrappingB
    ∧ nonProvisionedMemory (Containers wrapping) wrappingA = 9223372036854775807
    ∧ pickNodeFrom wrapping = (wrappingA.Node, none)
    ∧ pickNodeFrom wrapping ≠ (wrappingB.Node, none) := by
  decide

/-- C14, amended: on a fetched inventory PickNode returns what its loop selects.
For every inventory with a non-empty node partition in which no subtraction of the
loop wraps around, that is, the value the loop computes for each node is the
node's available value (its Mem minus the sum of the Mem of its containers): if
some node's available value is greater than math.MinInt32, the result is the first
node, in partition order, attaining the greatest available value; if every node's
available value is at most math.MinInt32, the result is the first node of the
partition.  No subtraction wraps around when no container has a negative Mem and
every node has its Mem below 2^63 and its available value not below -2^63.  For
every inventory with a non-empty node partition, wrapped or not: the two
statements hold of the values the loop computes; the result is the Node of a
record of the node partition; and inserting a record that is no node and, if a
container, names no node of the partition, does not change the result (so no
record of kind qemu, storage or template does). -/
theorem PickNode_sentinel_selection (resources : Resources) (first : Resource)
    (rest : List Resource) (hnodes : Nodes resources = first :: rest) :
    (∀ (env : Env) (s s1 : Session), ResourceList env s = (.ret (resources, none), s1) →
        PickNode env s = (.ret (pickNodeFrom resources), s1))
    ∧ ((∀ n ∈ Nodes resources,
          nonProvisionedMemory (Containers resources) n = availableSpec resources n) →
        ((∃ m ∈ Nodes resources, MinInt32 < availableSpec resources m) →
          ∃ pre n post, Nodes resources = pre ++ n :: post
            ∧ (∀ m ∈ pre, availableSpec resources m < availableSpec resources n)
            ∧ (∀ m ∈ post, availableSpec resources m ≤ availableSpec resources n)
            ∧ pickNodeFrom resources = (n.Node, none))
        ∧ ((∀ m ∈ Nodes resources, availableSpec resources m ≤ MinInt32) →
            pickNodeFrom resources = (first.Node, none)))
    ∧ ((∀ c ∈ resources, c.Typ = "lxc" → 0 ≤ c.Mem) →
        (∀ n ∈ Nodes resources,
          n.Mem < (2 : Int) ^ 63 ∧ -(2 : Int) ^ 63 ≤ availableSpec resources n) →
        ∀ n ∈ Nodes resources,
          nonProvisionedMemory (Containers resources) n = availableSpec resources n)
    ∧ ((∃ m ∈ Nodes resources, MinInt32 < nonProvisionedMemory (Containers resources) m) →
        ∃ pre n post, Nodes resources = pre ++ n :: post
          ∧ (∀ m ∈ pre, nonProvisionedMemory (Containers resources) m
                < nonProvisionedMemory (Containers resources) n)
          ∧ (∀ m ∈ post, nonProvisionedMemory (Containers resources) m
                ≤ nonProvisionedMemory (Containers resources) n)
          ∧ pickNodeFrom resources = (n.Node, none))
    ∧ ((∀ m ∈ Nodes resources, nonProvisionedMemory (Containers resources) m ≤ MinInt32) →
        pickNodeFrom resources = (first.Node, none))
    ∧ (∃ n ∈ Nodes resources, pickNodeFrom resources = (n.Node, none))
    ∧ (∀ (pre post : Resources) (x : Resource), resources = pre ++ post →
        x.Typ ≠ "node" →
        (x.Typ = "lxc" → ∀ n ∈ Nodes resources, n.Node ≠ x.Node) →
        pickNodeFrom (pre ++ x :: post) = pickNodeFrom resources) := by
  obtain ⟨habove, hbelow⟩ := pickNodeFrom_by_loop_value resources first rest hnodes
  refine ⟨fun env s s1 h => PickNode_of_fetch env s s1 resources h, ?_, ?_, habove, hbelow,
    ?_, ?_⟩
  · intro hexact
    constructor
    · intro hex
      obtain ⟨m, hm, hgt⟩ := hex
      obtain ⟨pre, n, post, hdec, hpre, hpost, hres⟩ :=
        habove ⟨m, hm, by rw [hexact m hm]; exact hgt⟩
      have hn : n ∈ Nodes resources := by rw [hdec]; simp
      refine ⟨pre, n, post, hdec, ?_, ?_, hres⟩
      · intro x hx
        have hxN : x ∈ Nodes resources := by
          rw [hdec]; exact List.mem_append_left _ hx
        rw [← hexact x hxN, ← hexact n hn]
        exact hpre x hx
      · intro x hx
        have hxN : x ∈ Nodes resources := by
          rw [hdec]; exact List.mem_append_right _ (List.mem_cons_of_mem n hx)
        rw [← hexact x hxN, ← hexact n hn]
        exact hpost x hx
    · intro hall
      exact hbelow (fun m hm => by rw [hexact m hm]; exact hall m hm)
  · intro hpos hrange n hn
    exact nonProvisionedMemory_eq_availableSpec resources n (hrange n hn).1 hpos (hrange n hn).2
  · by_cases hex : ∃ m ∈ Nodes resources,
        MinInt32 < nonProvisionedMemory (Containers resources) m
    · obtain ⟨pre, n, post, hdec, _, _, hres⟩ := habove hex
      exact ⟨n, by rw [hdec]; simp, hres⟩
    · have hall : ∀ m ∈ Nodes resources,
          nonProvisionedMemory (Containers resources) m ≤ MinInt32 := by
        intro m hm
        by_contra hlt
        exact hex ⟨m, hm, by omega⟩
      exact ⟨first, by rw [hnodes]; simp, hbelow hall⟩
  · intro pre post x hres hnode hlxc
    subst hres
    exact pickNodeFrom_insert pre post x hnode hlxc

/-- C14, amended, at two inventories without wrap-around: in the one of the
specification's example some available value is above math.MinInt32 and the
result is the first node attaining the greatest one; in the overcommitted one
every available value is at most math.MinInt32 and the first node, A, is
returned; and a VM record put in front of the latter changes nothing. -/
theorem PickNode_sentinel_selection_witness :
    (∀ n ∈ Nodes twoNodes,
        nonProvisionedMemory (Containers twoNodes) n = availableSpec twoNodes n)
    ∧ (∃ m ∈ Nodes twoNodes, MinInt32 < availableSpec twoNodes m)
    ∧ (∃ pre n post, Nodes twoNodes = pre ++ n :: post
        ∧ (∀ m ∈ pre, availableSpec twoNodes m < availableSpec twoNodes n)
        ∧ (∀ m ∈ post, availableSpec twoNodes m ≤ availableSpec twoNodes n)
        ∧ pickNodeFrom twoNodes = (n.Node, none))
    ∧ (∀ n ∈ Nodes overcommitted,
        nonProvisionedMemory (Containers overcommitted) n = availableSpec overcommitted n)
    ∧ (∀ m ∈ Nodes overcommitted, availableSpec overcommitted m ≤ MinInt32)
    ∧ pickNodeFrom overcommitted = (overcommittedA.Node, none)
    ∧ pickNodeFrom ([] ++ { Typ := "qemu", Node := "B", Vmid := 7, Mem := 5 } :: overcommitted)
        = pickNodeFrom overcommitted :=
  ⟨by decide, by decide,
   ((PickNode_sentinel_selection twoNodes
      { Typ := "node", Node := "A", ID := "node/A", Mem := 1000 }
      [{ Typ := "node", Node := "B", ID := "node/B", Mem := 2000 }]
      (by decide)).2.1 (by decide)).1 (by decide),
   by decide, by decide,
   ((PickNode_sentinel_selection overcommitted overcommittedA [overcommittedB]
      (by decide)).2.1 (by decide)).2 (by decide),
   (PickNode_sentinel_selection overcommitted overcommittedA [overcommittedB]
      (by decide)).2.2.2.2.2.2 [] overcommitted _ rfl (by decide) (by decide)⟩

/-! ## The CSRF header -/

theorem headerGet_headerSet (h : List (String × String)) (key value : String) :
    headerGet (headerSet h key value) key = some value := by
  have hnone : (h.filter (fun kv => decide (kv.1 ≠ key))).find? (fun kv => decide (kv.1 = key))
      = none := by
    rw [List.find?_eq_none]
    intro kv hkv
    have := (List.mem_filter.1 hkv).2
    simpa using this
  simp [headerGet, headerSet, List.find?_append, hnone]

theorem Adds.refl (P : Request → Prop) (s : Session) : Adds P s s :=
  ⟨[], by simp, by simp⟩

theorem Adds.step {P : Request → Prop} {s s1 : Session} (h : Adds P s s1) (r : Request)
    (hr : P r) : Adds P s { s1 with sent := s1.sent ++ [r] } := by
  obtain ⟨added, hsent, hall⟩ := h
  refine ⟨added ++ [r], by simp [hsent], ?_⟩
  intro x hx
  rcases List.mem_append.1 hx with hx | hx
  · exact hall x hx
  · rw [List.mem_singleton.1 hx]; exact hr

theorem Adds.mono {P Q : Request → Prop} {s s1 : Session} (hPQ : ∀ r, P r → Q r)
    (h : Adds P s s1) : Adds Q s s1 := by
  obtain ⟨added, hsent, hall⟩ := h
  exact ⟨added, hsent, fun r hr => hPQ r (hall r hr)⟩

theorem getRequest_isRead (c : Client) (u : String) : IsRead (getRequest c u) :=
  ⟨rfl, rfl⟩

theorem VerifyTicket_adds (env : Env) (s : Session) :
    Adds IsRead s (VerifyTicket env s).2 ∧ (VerifyTicket env s).2.client = s.client := by
  unfold VerifyTicket
  dsimp only
  split
  · exact ⟨Adds.refl _ s, rfl⟩
  · split
    · exact ⟨(Adds.refl _ s).step _ (getRequest_isRead _ _), rfl⟩
    · split
      · exact ⟨(Adds.refl _ s).step _ (getRequest_isRead _ _), rfl⟩
      · exact ⟨(Adds.refl _ s).step _ (getRequest_isRead _ _), rfl⟩

theorem VerifyTicket_false_has_error (env : Env) (s s1 : Session) (authed : Bool)
    (h : VerifyTicket env s = (.ret (authed, none), s1)) : authed = true := by
  unfold VerifyTicket at h
  dsimp only at h
  split at h
  · simp at h
  · split at h
    · simp at h
    · split at h
      · simp at h
      · simp at h
        exact h.1

theorem verifyThenSignIn_adds (env : Env) (s : Session) :
    Adds IsRead s (verifyThenSignIn env s).2 ∧ (verifyThenSignIn env s).2.client = s.client := by
  have hv := VerifyTicket_adds env s
  unfold verifyThenSignIn
  split
  · rename_i m s1 heq
    rw [heq] at hv
    exact hv
  · rename_i b err s1 heq
    rw [heq] at hv
    exact hv
  · rename_i authed s1 heq
    rw [heq] at hv
    have ht := VerifyTicket_false_has_error env s s1 authed heq
    subst ht
    exact hv

theorem NewRequest_ok (env : Env) (method u : String) (req0 : Request)
    (h : NewRequest env method u = .ok req0) :
    env.urlParse u = .ok req0.URL ∧ req0.Method = method := by
  unfold NewRequest at h
  split at h
  · cases h
  · rename_i u2 hu
    simp only [Except.ok.injEq] at h
    subst h
    exact ⟨hu, rfl⟩

theorem ResourceList_adds (env : Env) (s : Session) :
    Adds IsRead s (ResourceList env s).2 := by
  have hv := (verifyThenSignIn_adds env s).1
  unfold ResourceList
  split
  · rename_i m s1 heq; rw [heq] at hv; exact hv
  · rename_i err s1 heq; rw [heq] at hv; exact hv
  · rename_i s1 heq
    rw [heq] at hv
    dsimp only
    repeat' split
    all_goals first
      | exact hv
      | exact hv.step _ (getRequest_isRead _ _)

theorem NextID_adds (env : Env) (s : Session) : Adds IsRead s (NextID env s).2 := by
  have hv := (verifyThenSignIn_adds env s).1
  unfold NextID
  split
  · rename_i m s1 heq; rw [heq] at hv; exact hv
  · rename_i err s1 heq; rw [heq] at hv; exact hv
  · rename_i s1 heq
    rw [heq] at hv
    dsimp only
    repeat' split
    all_goals first
      | exact hv
      | exact hv.step _ (getRequest_isRead _ _)

theorem ContainerConfigOf_adds (env : Env) (node : String) (vmid : Int) (s : Session) :
    Adds IsRead s (ContainerConfigOf env node vmid s).2 := by
  have hv := (verifyThenSignIn_adds env s).1
  unfold ContainerConfigOf
  split
  · rename_i m s1 heq; rw [heq] at hv; exact hv
  · rename_i err s1 heq; rw [heq] at hv; exact hv
  · rename_i s1 heq
    rw [heq] at hv
    dsimp only
    repeat' split
    all_goals first
      | exact hv
      | exact hv.step _ (getRequest_isRead _ _)

theorem NodeStatusOf_adds (env : Env) (node : String) (s : Session) :
    Adds IsRead s (NodeStatusOf env node s).2 := by
  have hv := (verifyThenSignIn_adds env s).1
  unfold NodeStatusOf
  split
  · rename_i m s1 heq; rw [heq] at hv; exact hv
  · rename_i err s1 heq; rw [heq] at hv; exact hv
  · rename_i s1 heq
    rw [heq] at hv
    dsimp only
    repeat' split
    all_goals first
      | exact hv
      | exact hv.step _ (getRequest_isRead _ _)

theorem vmStatusPOSTHelper_adds (env : Env) (action node : String) (containerID : Int)
    (vmType : String) (s : Session) :
    Adds (fun r => IsRead r ∨
        IsMutating env (vmStatusPOSTHelper env action node containerID vmType s).2.client "POST"
          ((vmStatusPOSTHelper env action node containerID vmType s).2.client.host
            ++ "/api2/json/nodes/" ++ node ++ "/" ++ vmType ++ "/" ++ Itoa containerID
            ++ "/status/" ++ action) r)
      s (vmStatusPOSTHelper env action node containerID vmType s).2 := by
  have hv := (verifyThenSignIn_adds env s).1
  unfold vmStatusPOSTHelper
  split
  · rename_i m s1 heq; rw [heq] at hv; exact hv.mono (fun r hr => Or.inl hr)
  · rename_i err s1 heq; rw [heq] at hv; exact hv.mono (fun r hr => Or.inl hr)
  · rename_i s1 heq
    rw [heq] at hv
    dsimp only
    split
    · exact hv.mono (fun r hr => Or.inl hr)
    · rename_i u hu
      split
      · exact hv.mono (fun r hr => Or.inl hr)
      · rename_i req0 hreq
        have hnew := NewRequest_ok env "POST" u req0 hreq
        have hmut : IsMutating env s1.client "POST"
            (s1.client.host ++ "/api2/json/nodes/" ++ node ++ "/" ++ vmType ++ "/"
              ++ Itoa containerID ++ "/status/" ++ action)
            { req0 with Header := headerSet req0.Header "CSRFPreventionToken" s1.client.CSRFToken,
                        Cookies := s1.client.jar } :=
          ⟨hnew.2, ⟨u, hu, hnew.1⟩, headerGet_headerSet _ _ _⟩
        repeat' split
        all_goals exact (hv.mono (fun r hr => Or.inl hr)).step _ (Or.inr hmut)

theorem createRequest_query (env : Env) (c : Client) (params : ContainerCreateRequest)
    (buf : String) (req0 : Request) :
    (createRequest env c params buf req0).Query
      = env.urlQuery (createRequest env c params buf req0).URL ++ createPairs params buf := by
  simp [createRequest, valuesAdd, createPairs]

theorem createPairs_hasClaimedQuery (params : ContainerCreateRequest) (buf : String) :
    HasClaimedQuery params (createPairs params buf) := by
  simp [HasClaimedQuery, createPairs, valuesOf, ParsedTemplate.String]

theorem ContainerCreate_adds (env : Env)
    (tomlEncode : ContainerCreateRequest → Except String String)
    (params : ContainerCreateRequest) (s : Session) :
    Adds (fun r => IsRead r ∨
        (IsMutating env (ContainerCreate env tomlEncode params s).2.client "POST"
            ((ContainerCreate env tomlEncode params s).2.client.host ++ "/api2/json/nodes/"
              ++ params.Node ++ "/lxc") r
          ∧ ∃ buf, tomlEncode params = .ok buf
              ∧ r.Query = env.urlQuery r.URL ++ createPairs params buf))
      s (ContainerCreate env tomlEncode params s).2 := by
  have hv := (verifyThenSignIn_adds env s).1
  unfold ContainerCreate
  split
  · rename_i m s1 heq; rw [heq] at hv; exact hv.mono (fun r hr => Or.inl hr)
  · rename_i err s1 heq; rw [heq] at hv; exact hv.mono (fun r hr => Or.inl hr)
  · rename_i s1 heq
    rw [heq] at hv
    dsimp only
    split
    · exact hv.mono (fun r hr => Or.inl hr)
    · rename_i u hu
      split
      · exact hv.mono (fun r hr => Or.inl hr)
      · rename_i req0 hreq
        have hnew := NewRequest_ok env "POST" u req0 hreq
        split
        · exact hv.mono (fun r hr => Or.inl hr)
        · rename_i buf hbuf
          have hmut : IsMutating env s1.client "POST"
              (s1.client.host ++ "/api2/json/nodes/" ++ params.Node ++ "/lxc")
              (createRequest env s1.client params buf req0) :=
            ⟨hnew.2, ⟨u, hu, hnew.1⟩, headerGet_headerSet _ _ _⟩
          have hv2 : Adds (fun r => IsRead r ∨
              (IsMutating env s1.client "POST"
                  (s1.client.host ++ "/api2/json/nodes/" ++ params.Node ++ "/lxc") r
                ∧ ∃ buf, tomlEncode params = .ok buf
                    ∧ r.Query = env.urlQuery r.URL ++ createPairs params buf)) s s1 :=
            hv.mono (fun r hr => Or.inl hr)
          have hstep := hv2.step (createRequest env s1.client params buf req0)
            (Or.inr ⟨hmut, buf, hbuf, createRequest_query env s1.client params buf req0⟩)
          repeat' split
          all_goals exact hstep

theorem ContainerDelete_adds (env : Env) (node : String) (vmid : Int) (s : Session) :
    Adds (fun r => IsRead r ∨
        IsMutating env (ContainerDelete env node vmid s).2.client "DELETE"
          ((ContainerDelete env node vmid s).2.client.host ++ "/api2/json/nodes/" ++ node
            ++ "/lxc/" ++ Itoa vmid) r)
      s (ContainerDelete env node vmid s).2 := by
  have hv := (verifyThenSignIn_adds env s).1
  have hc := (verifyThenSignIn_adds env s).2
  unfold ContainerDelete
  split
  · exact Adds.refl _ s
  · rename_i u hu
    split
    · rename_i m s1 heq; rw [heq] at hv; exact hv.mono (fun r hr => Or.inl hr)
    · rename_i err s1 heq; rw [heq] at hv; exact hv.mono (fun r hr => Or.inl hr)
    · rename_i s1 heq
      rw [heq] at hv hc
      dsimp only at hc ⊢
      split
      · exact hv.mono (fun r hr => Or.inl hr)
      · rename_i req0 hreq
        have hnew := NewRequest_ok env "DELETE" u req0 hreq
        have hmut : IsMutating env s1.client "DELETE"
            (s1.client.host ++ "/api2/json/nodes/" ++ node ++ "/lxc/" ++ Itoa vmid)
            (deleteRequest s1.client req0) :=
          ⟨hnew.2, ⟨u, by rw [hc]; exact hu, hnew.1⟩, headerGet_headerSet _ _ _⟩
        repeat' split
        all_goals exact (hv.mono (fun r hr => Or.inl hr)).step _ (Or.inr hmut)

theorem verifyThenSignIn_accepted (env : Env) (s : Session) (v : String) (resp : Response)
    (hv : env.urlParse (s.client.host ++ "/api2/json/version") = .ok v)
    (hresp : (env.roundTrip s.sent (getRequest s.client v)).1 = some resp)
    (hok : resp.StatusCode = StatusOK) :
    verifyThenSignIn env s
      = (.ret none, { s with sent := s.sent ++ [getRequest s.client v] }) := by
  simp [verifyThenSignIn, VerifyTicket, hv, hresp, hok]

theorem VerifyTicket_sends (env : Env) (s : Session) (v : String)
    (hv : env.urlParse (s.client.host ++ "/api2/json/version") = .ok v) :
    (VerifyTicket env s).2 = { s with sent := s.sent ++ [getRequest s.client v] } := by
  unfold VerifyTicket
  simp only [hv]
  split
  · rfl
  · split <;> rfl

theorem ResourceList_sends (env : Env) (s : Session) (v u : String) (resp : Response)
    (hv : env.urlParse (s.client.host ++ "/api2/json/version") = .ok v)
    (hresp : (env.roundTrip s.sent (getRequest s.client v)).1 = some resp)
    (hok : resp.StatusCode = StatusOK)
    (hu : env.urlParse (s.client.host ++ "/api2/json/cluster/resources") = .ok u) :
    (ResourceList env s).2
      = { s with sent := s.sent ++ [getRequest s.client v, getRequest s.client u] } := by
  unfold ResourceList
  rw [verifyThenSignIn_accepted env s v resp hv hresp hok]
  simp only [hu]
  repeat' split
  all_goals simp

theorem NextID_sends (env : Env) (s : Session) (v u : String) (resp : Response)
    (hv : env.urlParse (s.client.host ++ "/api2/json/version") = .ok v)
    (hresp : (env.roundTrip s.sent (getRequest s.client v)).1 = some resp)
    (hok : resp.StatusCode = StatusOK)
    (hu : env.urlParse (s.client.host ++ "/api2/json/cluster/nextid") = .ok u) :
    (NextID env s).2
      = { s with sent := s.sent ++ [getRequest s.client v, getRequest s.client u] } := by
  unfold NextID
  rw [verifyThenSignIn_accepted env s v resp hv hresp hok]
  simp only [hu]
  repeat' split
  all_goals simp

theorem ContainerConfigOf_sends (env : Env) (node : String) (vmid : Int) (s : Session)
    (v u : String) (resp : Response)
    (hv : env.urlParse (s.client.host ++ "/api2/json/version") = .ok v)
    (hresp : (env.roundTrip s.sent (getRequest s.client v)).1 = some resp)
    (hok : resp.StatusCode = StatusOK)
    (hu : env.urlParse (s.client.host ++ "/api2/json/nodes/" ++ node ++ "/lxc/" ++ Itoa vmid
        ++ "/config") = .ok u) :
    (ContainerConfigOf env node vmid s).2
      = { s with sent := s.sent ++ [getRequest s.client v, getRequest s.client u] } := by
  unfold ContainerConfigOf
  rw [verifyThenSignIn_accepted env s v resp hv hresp hok]
  simp only [hu]
  repeat' split
  all_goals simp

theorem NodeStatusOf_sends (env : Env) (node : String) (s : Session)
    (v u : String) (resp : Response)
    (hv : env.urlParse (s.client.host ++ "/api2/json/version") = .ok v)
    (hresp : (env.roundTrip s.sent (getRequest s.client v)).1 = some resp)
    (hok : resp.StatusCode = StatusOK)
    (hu : env.urlParse (s.client.host ++ "/api2/json/nodes/" ++ node ++ "/status") = .ok u) :
    (NodeStatusOf env node s).2
      = { s with sent := s.sent ++ [getRequest s.client v, getRequest s.client u] } := by
  unfold NodeStatusOf
  rw [verifyThenSignIn_accepted env s v resp hv hresp hok]
  simp only [hu]
  repeat' split
  all_goals simp

theorem vmStatusPOSTHelper_sends (env : Env) (action node : String) (containerID : Int)
    (vmType : String) (s : Session) (v u u2 : String) (resp : Response)
    (hv : env.urlParse (s.client.host ++ "/api2/json/version") = .ok v)
    (hresp : (env.roundTrip s.sent (getRequest s.client v)).1 = some resp)
    (hok : resp.StatusCode = StatusOK)
    (hu : env.urlParse (s.client.host ++ "/api2/json/nodes/" ++ node ++ "/" ++ vmType ++ "/"
        ++ Itoa containerID ++ "/status/" ++ action) = .ok u)
    (hu2 : env.urlParse u = .ok u2) :
    (vmStatusPOSTHelper env action node containerID vmType s).2
      = { s with sent := s.sent
            ++ [getRequest s.client v, mutatingRequest s.client "POST" u2] } := by
  unfold vmStatusPOSTHelper
  rw [verifyThenSignIn_accepted env s v resp hv hresp hok]
  simp only [hu, NewRequest, hu2]
  repeat' split
  all_goals simp [mutatingRequest, headerSet, csrfHeader]

theorem ContainerCreate_sends (env : Env)
    (tomlEncode : ContainerCreateRequest → Except String String)
    (params : ContainerCreateRequest) (s : Session) (v u u2 buf : String) (resp : Response)
    (hv : env.urlParse (s.client.host ++ "/api2/json/version") = .ok v)
    (hresp : (env.roundTrip s.sent (getRequest s.client v)).1 = some resp)
    (hok : resp.StatusCode = StatusOK)
    (hu : env.urlParse (s.client.host ++ "/api2/json/nodes/" ++ params.Node ++ "/lxc") = .ok u)
    (hu2 : env.urlParse u = .ok u2)
    (hbuf : tomlEncode params = .ok buf) :
    (ContainerCreate env tomlEncode params s).2
      = { s with sent := s.sent
            ++ [getRequest s.client v,
                { mutatingRequest s.client "POST" u2 with
                  Query := env.urlQuery u2 ++ createPairs params buf }] } := by
  unfold ContainerCreate
  rw [verifyThenSignIn_accepted env s v resp hv hresp hok]
  simp only [hu, NewRequest, hu2, hbuf]
  repeat' split
  all_goals simp [mutatingRequest, headerSet, csrfHeader, createRequest, valuesAdd, createPairs]

theorem ContainerDelete_sends (env : Env) (node : String) (vmid : Int) (s : Session)
    (v u u2 : String) (resp : Response)
    (hv : env.urlParse (s.client.host ++ "/api2/json/version") = .ok v)
    (hresp : (env.roundTrip s.sent (getRequest s.client v)).1 = some resp)
    (hok : resp.StatusCode = StatusOK)
    (hu : env.urlParse (s.client.host ++ "/api2/json/nodes/" ++ node ++ "/lxc/" ++ Itoa vmid)
        = .ok u)
    (hu2 : env.urlParse u = .ok u2) :
    (ContainerDelete env node vmid s).2
      = { s with sent := s.sent
            ++ [getRequest s.client v, mutatingRequest s.client "DELETE" u2] } := by
  unfold ContainerDelete
  simp only [hu]
  rw [verifyThenSignIn_accepted env s v resp hv hresp hok]
  simp only [NewRequest, hu2]
  repeat' split
  all_goals simp [mutatingRequest, headerSet, csrfHeader, deleteRequest]

theorem slash_lxc_slash (a : String) : a ++ "/" ++ "lxc" ++ "/" = a ++ "/lxc/" := by
  rw [String.append_assoc, String.append_assoc]
  rfl

theorem csrf_invariant (env : Env) (s : Session) :
    (∀ action node vmid,
        Adds (fun r => IsRead r ∨
            IsMutating env (ContainerStatus env action node vmid s).2.client "POST"
              ((ContainerStatus env action node vmid s).2.client.host ++ "/api2/json/nodes/"
                ++ node ++ "/lxc/" ++ Itoa vmid ++ "/status/" ++ action) r)
          s (ContainerStatus env action node vmid s).2)
    ∧ (∀ tomlEncode params,
        Adds (fun r => IsRead r ∨
            IsMutating env (ContainerCreate env tomlEncode params s).2.client "POST"
              ((ContainerCreate env tomlEncode params s).2.client.host ++ "/api2/json/nodes/"
                ++ params.Node ++ "/lxc") r)
          s (ContainerCreate env tomlEncode params s).2)
    ∧ (∀ node vmid,
        Adds (fun r => IsRead r ∨
            IsMutating env (ContainerDelete env node vmid s).2.client "DELETE"
              ((ContainerDelete env node vmid s).2.client.host ++ "/api2/json/nodes/" ++ node
                ++ "/lxc/" ++ Itoa vmid) r)
          s (ContainerDelete env node vmid s).2)
    ∧ Adds IsRead s (VerifyTicket env s).2
    ∧ Adds IsRead s (ResourceList env s).2
    ∧ Adds IsRead s (NextID env s).2
    ∧ (∀ node vmid, Adds IsRead s (ContainerConfigOf env node vmid s).2)
    ∧ (∀ node, Adds IsRead s (NodeStatusOf env node s).2) := by
  refine ⟨?_, ?_, fun node vmid => ContainerDelete_adds env node vmid s,
    (VerifyTicket_adds env s).1, ResourceList_adds env s, NextID_adds env s,
    fun node vmid => ContainerConfigOf_adds env node vmid s,
    fun node => NodeStatusOf_adds env node s⟩
  · intro action node vmid
    have h := vmStatusPOSTHelper_adds env action node vmid "lxc" s
    rw [slash_lxc_slash] at h
    exact h
  · intro tomlEncode params
    exact (ContainerCreate_adds env tomlEncode params s).mono
      (fun r hr => hr.imp id (fun h => h.1))

/-- C12: (1) whatever the server does, every request one of these calls adds to
the log is either a GET without the CSRF header or the call's own mutating
request: for a status action a POST to host/api2/json/nodes/node/lxc/vmid/status/action,
for ContainerCreate a POST to host/api2/json/nodes/node/lxc, for ContainerDelete a
DELETE to host/api2/json/nodes/node/lxc/vmid, each with the header
CSRFPreventionToken equal to the CSRFToken the client holds when the request is
sent; VerifyTicket, ResourceList, NextID, ContainerConfig and NodeStatus add
nothing but GET requests without that header.  (2) VerifyTicket sends its GET as
soon as its URL parses.  (3) When the probe is answered with status 200 and the
URL of the call parses, each call does send its request after the probe: the
status action, ContainerCreate and ContainerDelete send exactly the POST,
respectively DELETE, whose only header is CSRFPreventionToken with the client's
CSRFToken, and the four reading calls send exactly a GET without headers. -/
theorem csrf_header_on_mutating_requests_only (env : Env) (s : Session) :
    ((∀ action node vmid,
        Adds (fun r => IsRead r ∨
            IsMutating env (ContainerStatus env action node vmid s).2.client "POST"
              ((ContainerStatus env action node vmid s).2.client.host ++ "/api2/json/nodes/"
                ++ node ++ "/lxc/" ++ Itoa vmid ++ "/status/" ++ action) r)
          s (ContainerStatus env action node vmid s).2)
      ∧ (∀ tomlEncode params,
        Adds (fun r => IsRead r ∨
            IsMutating env (ContainerCreate env tomlEncode params s).2.client "POST"
              ((ContainerCreate env tomlEncode params s).2.client.host ++ "/api2/json/nodes/"
                ++ params.Node ++ "/lxc") r)
          s (ContainerCreate env tomlEncode params s).2)
      ∧ (∀ node vmid,
        Adds (fun r => IsRead r ∨
            IsMutating env (ContainerDelete env node vmid s).2.client "DELETE"
              ((ContainerDelete env node vmid s).2.client.host ++ "/api2/json/nodes/" ++ node
                ++ "/lxc/" ++ Itoa vmid) r)
          s (ContainerDelete env node vmid s).2)
      ∧ Adds IsRead s (VerifyTicket env s).2
      ∧ Adds IsRead s (ResourceList env s).2
      ∧ Adds IsRead s (NextID env s).2
      ∧ (∀ node vmid, Adds IsRead s (ContainerConfigOf env node vmid s).2)
      ∧ (∀ node, Adds IsRead s (NodeStatusOf env node s).2))
    ∧ (∀ v, env.urlParse (s.client.host ++ "/api2/json/version") = .ok v →
        (VerifyTicket env s).2 = { s with sent := s.sent ++ [getRequest s.client v] })
    ∧ (∀ v resp, env.urlParse (s.client.host ++ "/api2/json/version") = .ok v →
        (env.roundTrip s.sent (getRequest s.client v)).1 = some resp →
        resp.StatusCode = StatusOK →
        (∀ action node vmid u u2,
            env.urlParse (s.client.host ++ "/api2/json/nodes/" ++ node ++ "/lxc/"
              ++ Itoa vmid ++ "/status/" ++ action) = .ok u →
            env.urlParse u = .ok u2 →
            (ContainerStatus env action node vmid s).2
              = { s with sent := s.sent
                    ++ [getRequest s.client v, mutatingRequest s.client "POST" u2] })
        ∧ (∀ tomlEncode params u u2 buf,
            env.urlParse (s.client.host ++ "/api2/json/nodes/" ++ params.Node ++ "/lxc")
              = .ok u →
            env.urlParse u = .ok u2 →
            tomlEncode params = .ok buf →
            (ContainerCreate env tomlEncode params s).2
              = { s with sent := s.sent
                    ++ [getRequest s.client v,
                        { mutatingRequest s.client "POST" u2 with
                          Query := env.urlQuery u2 ++ createPairs params buf }] })
        ∧ (∀ node vmid u u2,
            env.urlParse (s.client.host ++ "/api2/json/nodes/" ++ node ++ "/lxc/"
              ++ Itoa vmid) = .ok u →
            env.urlParse u = .ok u2 →
            (ContainerDelete env node vmid s).2
              = { s with sent := s.sent
                    ++ [getRequest s.client v, mutatingRequest s.client "DELETE" u2] })
        ∧ (∀ u, env.urlParse (s.client.host ++ "/api2/json/cluster/resources") = .ok u →
            (ResourceList env s).2
              = { s with sent := s.sent ++ [getRequest s.client v, getRequest s.client u] })
        ∧ (∀ u, env.urlParse (s.client.host ++ "/api2/json/cluster/nextid") = .ok u →
            (NextID env s).2
              = { s with sent := s.sent ++ [getRequest s.client v, getRequest s.client u] })
        ∧ (∀ node vmid u,
            env.urlParse (s.client.host ++ "/api2/json/nodes/" ++ node ++ "/lxc/"
              ++ Itoa vmid ++ "/config") = .ok u →
            (ContainerConfigOf env node vmid s).2
              = { s with sent := s.sent ++ [getRequest s.client v, getRequest s.client u] })
        ∧ (∀ node u,
            env.urlParse (s.client.host ++ "/api2/json/nodes/" ++ node ++ "/status") = .ok u →
            (NodeStatusOf env node s).2
              = { s with sent := s.sent ++ [getRequest s.client v, getRequest s.client u] }))
    ∧ (∀ c method url,
        (mutatingRequest c method url).Method = method
        ∧ (mutatingRequest c method url).URL = url
        ∧ headerGet (mutatingRequest c method url).Header csrfHeader = some c.CSRFToken)
    ∧ (∀ c url, (getRequest c url).Method = "GET"
        ∧ headerGet (getRequest c url).Header csrfHeader = none) := by
  refine ⟨csrf_invariant env s, fun v hv => VerifyTicket_sends env s v hv, ?_, ?_, ?_⟩
  · intro v resp hv hresp hok
    refine ⟨?_, ?_, ?_, ?_, ?_, ?_, ?_⟩
    · intro action node vmid u u2 hu hu2
      rw [← slash_lxc_slash] at hu
      exact vmStatusPOSTHelper_sends env action node vmid "lxc" s v u u2 resp hv hresp hok hu hu2
    · intro tomlEncode params u u2 buf hu hu2 hbuf
      exact ContainerCreate_sends env tomlEncode params s v u u2 buf resp hv hresp hok hu hu2
        hbuf
    · intro node vmid u u2 hu hu2
      exact ContainerDelete_sends env node vmid s v u u2 resp hv hresp hok hu hu2
    · intro u hu
      exact ResourceList_sends env s v u resp hv hresp hok hu
    · intro u hu
      exact NextID_sends env s v u resp hv hresp hok hu
    · intro node vmid u hu
      exact ContainerConfigOf_sends env node vmid s v u resp hv hresp hok hu
    · intro node u hu
      exact NodeStatusOf_sends env node s v u resp hv hresp hok hu
  · intro c method url
    exact ⟨rfl, rfl, by simp [mutatingRequest, headerGet]⟩
  · intro c url
    exact ⟨rfl, rfl⟩

/-- C12 on a server that accepts the ticket, for the client holding csrf-1:
starting container 100 on node A, creating it and deleting it each send the probe
and then their POST, POST and DELETE with the header CSRFPreventionToken: csrf-1;
listing the resources sends two GET requests without that header. -/
theorem csrf_header_on_mutating_requests_only_witness :
    (ContainerStatus (servingEnv []) "start" "A" 100 signedIn).2.sent
        = [getRequest signedIn.client "https://pve.example:8006/api2/json/version",
           mutatingRequest signedIn.client "POST"
             "https://pve.example:8006/api2/json/nodes/A/lxc/100/status/start"]
    ∧ (ContainerCreate (servingEnv []) hostNameToml createOnA signedIn).2.sent
        = [getRequest signedIn.client "https://pve.example:8006/api2/json/version",
           { mutatingRequest signedIn.client "POST"
               "https://pve.example:8006/api2/json/nodes/A/lxc" with
             Query := createPairs createOnA "HostName = web1" }]
    ∧ (ContainerDelete (servingEnv []) "A" 100 signedIn).2.sent
        = [getRequest signedIn.client "https://pve.example:8006/api2/json/version",
           mutatingRequest signedIn.client "DELETE"
             "https://pve.example:8006/api2/json/nodes/A/lxc/100"]
    ∧ (ResourceList (servingEnv []) signedIn).2.sent
        = [getRequest signedIn.client "https://pve.example:8006/api2/json/version",
           getRequest signedIn.client "https://pve.example:8006/api2/json/cluster/resources"]
    ∧ headerGet (mutatingRequest signedIn.client "DELETE"
          "https://pve.example:8006/api2/json/nodes/A/lxc/100").Header csrfHeader
        = some "csrf-1"
    ∧ headerGet (getRequest signedIn.client
          "https://pve.example:8006/api2/json/cluster/resources").Header csrfHeader = none :=
  ⟨congrArg Session.sent
     (((csrf_header_on_mutating_requests_only (servingEnv []) signedIn).2.2.1
        "https://pve.example:8006/api2/json/version" okResponse rfl rfl rfl).1
        "start" "A" 100 _ _ rfl rfl),
   congrArg Session.sent
     (((csrf_header_on_mutating_requests_only (servingEnv []) signedIn).2.2.1
        "https://pve.example:8006/api2/json/version" okResponse rfl rfl rfl).2.1
        hostNameToml createOnA _ _ _ rfl rfl rfl),
   congrArg Session.sent
     (((csrf_header_on_mutating_requests_only (servingEnv []) signedIn).2.2.1
        "https://pve.example:8006/api2/json/version" okResponse rfl rfl rfl).2.2.1
        "A" 100 _ _ rfl rfl),
   congrArg Session.sent
     (((csrf_header_on_mutating_requests_only (servingEnv []) signedIn).2.2.1
        "https://pve.example:8006/api2/json/version" okResponse rfl rfl rfl).2.2.2.1
        _ rfl),
   ((csrf_header_on_mutating_requests_only (servingEnv []) signedIn).2.2.2.1
      signedIn.client "DELETE" "https://pve.example:8006/api2/json/nodes/A/lxc/100").2.2,
   ((csrf_header_on_mutating_requests_only (servingEnv []) signedIn).2.2.2.2
      signedIn.client "https://pve.example:8006/api2/json/cluster/resources").2⟩

/-! ## The query of `ContainerCreate` -/

/-- C13, as stated, fails: for a create request whose node name is pve?vmid=7 the
URL the request is made for already has the query part vmid=7/lxc, the query
starts from it, and the key vmid ends with two values, the first of which is not
the decimal VMID. -/
theorem ContainerCreate_keeps_query_of_url :
    ∃ r ∈ (ContainerCreate queryEnv hostNameToml createOnQueryNode signedIn).2.sent,
      r.Method = "POST"
      ∧ valuesOf r.Query "vmid" = ["7/lxc", "100"]
      ∧ ¬ HasClaimedQuery createOnQueryNode r.Query := by
  decide

/-- C13, amended: every POST request ContainerCreate adds to the log has as its
query the values of the URL's own query part followed by the twelve pairs
ostemplate, vmid, storage, swap, cores, rootfs, cpulimit, memory, hostname,
password, description, net0; when the URL has no query part of its own, each of
ostemplate (templates:vztmpl/ and the template's String form), vmid (decimal
VMID), storage (StorageID), swap (512), cores and cpulimit (decimal CPUCores),
rootfs (decimal StorageCapacity), hostname, password, description and net0 (the
fixed interface text around the MAC) occurs exactly once with that value. -/
theorem ContainerCreate_query (env : Env)
    (tomlEncode : ContainerCreateRequest → Except String String)
    (params : ContainerCreateRequest) (s : Session) (added : List Request) (r : Request)
    (hadded : (ContainerCreate env tomlEncode params s).2.sent = s.sent ++ added)
    (hr : r ∈ added) (hpost : r.Method = "POST") :
    (∃ buf, tomlEncode params = .ok buf
        ∧ r.Query = env.urlQuery r.URL ++ createPairs params buf)
    ∧ (env.urlQuery r.URL = [] → HasClaimedQuery params r.Query) := by
  obtain ⟨added2, hsent, hall⟩ := ContainerCreate_adds env tomlEncode params s
  have hsame : added = added2 := by
    rw [hadded] at hsent
    exact List.append_cancel_left hsent
  subst hsame
  rcases hall r hr with hread | hmut
  · rw [hread.1] at hpost
    exact absurd hpost (by decide)
  · obtain ⟨_, buf, hbuf, hq⟩ := hmut
    refine ⟨⟨buf, hbuf, hq⟩, ?_⟩
    intro hempty
    rw [hq, hempty, List.nil_append]
    exact createPairs_hasClaimedQuery params buf

/-- C13, amended, at the create request for container 100 on node A, on a server
that accepts the ticket: the call adds the probe and the POST, the URL of the POST
has no query part of its own, and its query is the one described. -/
theorem ContainerCreate_query_witness :
    (ContainerCreate (servingEnv []) hostNameToml createOnA signedIn).2.sent
        = signedIn.sent
          ++ [getRequest signedIn.client "https://pve.example:8006/api2/json/version",
              createOnARequest]
    ∧ createOnARequest.Method = "POST"
    ∧ (servingEnv []).urlQuery createOnARequest.URL = []
    ∧ HasClaimedQuery createOnA createOnARequest.Query :=
  ⟨by decide, rfl, rfl,
   (ContainerCreate_query (servingEnv []) hostNameToml createOnA signedIn
      [getRequest signedIn.client "https://pve.example:8006/api2/json/version",
       createOnARequest]
      createOnARequest (by decide) (by decide) rfl).2 rfl⟩

end Proxmox
